import Mathlib

/-! RealKMSOutput (platforms/mesa/server/kms/real_kms_output.cpp)

A shallow embedding of the KMS output object of the Mesa platform.  The
object's members and the part of the outside world it talks to (the DRM
kernel interface, the page flipper, libgbm's per-buffer user data) are kept
in one record `Sys`; every external call is appended to `Sys.trace`, and the
value an external call returns is read from an `Env`, a family of functions
of the call history (the history passed to them ends with the call being
answered), so that every theorem holds for every behaviour of the kernel.
-/

namespace Mir

/-! ## Plain data -/

/-- MirPowerMode enumeration (mir_toolkit). -/
inductive MirPowerMode where
  | mir_power_mode_on
  | mir_power_mode_standby
  | mir_power_mode_suspend
  | mir_power_mode_off
  deriving DecidableEq, Repr

/-- The drmModeConnection enumeration of libdrm. -/
inductive drmModeConnection where
  | DRM_MODE_CONNECTED
  | DRM_MODE_DISCONNECTED
  | DRM_MODE_UNKNOWNCONNECTION
  deriving DecidableEq, Repr

/-- The fields of drmModeModeInfo the output reads. -/
structure drmModeModeInfo where
  clock : Nat
  hdisplay : Nat
  vdisplay : Nat
  vrefresh : Nat
  deriving DecidableEq, Repr

/-- The drmModeCrtc record of libdrm. -/
structure drmModeCrtc where
  crtc_id : Nat
  buffer_id : Nat
  x : Nat
  y : Nat
  width : Nat
  height : Nat
  mode_valid : Nat
  mode : drmModeModeInfo
  gamma_size : Nat
  deriving DecidableEq, Repr

/-- The drmModeEncoder record of libdrm (fields used here). -/
structure drmModeEncoder where
  encoder_id : Nat
  crtc_id : Nat
  deriving DecidableEq, Repr

/-- The drmModeConnector record of libdrm (fields used here); count_props is
the length of props. -/
structure drmModeConnector where
  connector_id : Nat
  encoder_id : Nat
  connection : drmModeConnection
  modes : List drmModeModeInfo
  props : List Nat
  deriving DecidableEq, Repr

/-- The drmModePropertyRes record of libdrm (fields used here). -/
structure drmModePropertyRes where
  prop_id : Nat
  flags : Nat
  name : String
  deriving DecidableEq, Repr

/-- The frame counter and timestamp reported by a completed page flip. -/
structure Frame where
  msc : Int
  ust : Int
  deriving DecidableEq, Repr

/-- A geom::Displacement. -/
structure Displacement where
  dx : Int
  dy : Int
  deriving DecidableEq, Repr

/-- A geom::Point. -/
structure Point where
  x : Int
  y : Int
  deriving DecidableEq, Repr

/-- A geom::Size. -/
structure Size where
  width : Nat
  height : Nat
  deriving DecidableEq, Repr

/-- The three gamma lookup tables. -/
structure GammaCurves where
  red : List Nat
  green : List Nat
  blue : List Nat
  deriving DecidableEq, Repr

/-- A gbm buffer object: its identity and the attributes libgbm reports for
it (handle, width, height, stride, format, fd of the device it was created
on).  The user data libgbm keeps for it lives in `Sys.user_data`. -/
structure gbm_bo where
  id : Nat
  handle : Nat
  width : Nat
  height : Nat
  stride : Nat
  format : Nat
  device_fd : Int
  deriving DecidableEq, Repr

/-- The class mgm::FBHandle: the buffer object and the kernel framebuffer id. -/
structure FBHandle where
  bo : gbm_bo
  drm_fb_id : Nat
  deriving DecidableEq, Repr

/-- FBHandle::get_drm_fb_id. -/
def FBHandle.get_drm_fb_id (fb : FBHandle) : Nat := fb.drm_fb_id

/-- Conversion of an int to uint32_t. -/
def as_uint32_t (i : Int) : Nat := (i % 4294967296).toNat

/-- Conversion of a uint32_t to int: values from 2147483648 on come out
negative. -/
def uint32_as_int (u : Nat) : Int :=
  if u % 4294967296 < 2147483648 then ((u % 4294967296 : Nat) : Int)
  else ((u % 4294967296 : Nat) : Int) - 4294967296

/-- DRM_MODE_PROP_ENUM of libdrm. -/
def DRM_MODE_PROP_ENUM : Nat := 8

/-- GBM_BO_FORMAT_XRGB8888 of gbm.h. -/
def GBM_BO_FORMAT_XRGB8888 : Nat := 0

/-- GBM_BO_FORMAT_ARGB8888 of gbm.h. -/
def GBM_BO_FORMAT_ARGB8888 : Nat := 1

/-- GBM_FORMAT_XRGB8888 of gbm.h, the fourcc code XR24. -/
def GBM_FORMAT_XRGB8888 : Nat := 0x34325258

/-- GBM_FORMAT_ARGB8888 of gbm.h, the fourcc code AR24. -/
def GBM_FORMAT_ARGB8888 : Nat := 0x34325241

/-! ## External calls -/

/-- One call that leaves the object: a libdrm call, a query of the
DRMModeResources helper, the controller search of kms-utils, or a call of
the page flipper. -/
inductive Event where
  | drmModeSetCrtc (fd : Int) (crtc_id buffer_id x y : Nat)
      (connectors : List Nat) (mode : Option drmModeModeInfo)
  | drmModeConnectorSetProperty (fd : Int) (connector_id property_id : Nat)
      (value : MirPowerMode)
  | drmModeCrtcSetGamma (fd : Int) (crtc_id size : Nat) (red green blue : List Nat)
  | drmModeSetCursor (fd : Int) (crtc_id bo_handle width height : Nat)
  | drmModeMoveCursor (fd : Int) (crtc_id : Nat) (x y : Int)
  | drmModeAddFB2 (fd : Int) (width height pixel_format : Nat)
      (handles strides offsets : List Nat) (flags : Nat)
  | drmModeRmFB (fd : Int) (fb_id : Nat)
  | drmModeGetProperty (fd : Int) (property_id : Nat)
  | DRMModeResources (fd : Int)
  | resources_connector (id : Nat)
  | resources_encoder (id : Nat)
  | resources_crtc (id : Nat)
  | find_crtc_for_connector (fd : Int) (connector : drmModeConnector)
  | schedule_flip (crtc_id fb_id connector_id : Nat)
  | wait_for_flip (crtc_id : Nat)
  deriving DecidableEq, Repr

/-- What the outside world answers.  Each function receives the history of
external calls up to and including the call it answers.  For the helpers
that report failure by throwing, `none` (or `false`) stands for the throw;
the page flipper is taken to answer every call. -/
structure Env where
  drmModeSetCrtc : List Event → Int
  drmModeConnectorSetProperty : List Event → Int
  drmModeCrtcSetGamma : List Event → Int
  drmModeSetCursor : List Event → Int
  drmModeMoveCursor : List Event → Int
  drmModeAddFB2 : List Event → Int × Nat
  drmModeGetProperty : List Event → Option drmModePropertyRes
  DRMModeResources : List Event → Bool
  resources_connector : List Event → Option drmModeConnector
  resources_encoder : List Event → Option drmModeEncoder
  resources_crtc : List Event → Option drmModeCrtc
  find_crtc_for_connector : List Event → Option (Option drmModeCrtc)
  schedule_flip : List Event → Bool
  wait_for_flip : List Event → Frame

/-- Severity of a log line. -/
inductive Severity where
  | error
  | warning
  deriving DecidableEq, Repr

/-- How a member function ends: it returns, mir::fatal_error is raised,
std::invalid_argument is thrown, another exception of a collaborator
propagates, or the behaviour is undefined (a null controller or a mode
index past the mode list is dereferenced). -/
inductive Outcome (α : Type) where
  | ok (a : α)
  | fatal_error (msg : String)
  | invalid_argument (msg : String)
  | exception
  | undefined
  deriving DecidableEq, Repr

/-- The members of RealKMSOutput (drm_fd to last_frame_), followed by the
outside world: the trace of external calls, the log, the user data pointer
libgbm keeps per buffer object (keyed by the buffer object's identity), the
FBHandle objects on the heap (address and contents) and the next fresh
address. -/
structure Sys where
  drm_fd : Int
  connector_id : Nat
  connector : drmModeConnector
  mode_index : Nat
  fb_offset : Displacement
  current_crtc : Option drmModeCrtc
  saved_crtc : drmModeCrtc
  using_saved_crtc : Bool
  has_cursor_ : Bool
  power_mode : MirPowerMode
  dpms_enum_id : Nat
  last_frame_ : Frame
  trace : List Event
  log : List (Severity × String)
  user_data : List (Nat × Nat)
  heap : List (Nat × FBHandle)
  next_addr : Nat
  deriving DecidableEq, Repr

/-- Appends one external call to the trace. -/
def Sys.call (s : Sys) (e : Event) : Sys := { s with trace := s.trace ++ [e] }

/-- The functions mir::log_error and mir::log_warning. -/
def Sys.log_line (s : Sys) (sev : Severity) (msg : String) : Sys :=
  { s with log := s.log ++ [(sev, msg)] }

/-- Continues with `f` after a normal return; anything else propagates. -/
def Outcome.andThen {α β : Type} (r : Outcome α × Sys)
    (f : α → Sys → Outcome β × Sys) : Outcome β × Sys :=
  match r with
  | (Outcome.ok a, s) => f a s
  | (Outcome.fatal_error m, s) => (Outcome.fatal_error m, s)
  | (Outcome.invalid_argument m, s) => (Outcome.invalid_argument m, s)
  | (Outcome.exception, s) => (Outcome.exception, s)
  | (Outcome.undefined, s) => (Outcome.undefined, s)

/-- A value-initialised drmModeModeInfo. -/
def drmModeModeInfo.zero : drmModeModeInfo :=
  { clock := 0, hdisplay := 0, vdisplay := 0, vrefresh := 0 }

/-- A value-initialised drmModeCrtc, as produced by `saved_crtc()`. -/
def drmModeCrtc.zero : drmModeCrtc :=
  { crtc_id := 0, buffer_id := 0, x := 0, y := 0, width := 0, height := 0,
    mode_valid := 0, mode := drmModeModeInfo.zero, gamma_size := 0 }

/-! ## Member functions of RealKMSOutput -/

/-- RealKMSOutput::ensure_crtc. -/
def ensure_crtc (env : Env) (s : Sys) : Outcome Bool × Sys :=
  if s.current_crtc.isSome then (Outcome.ok true, s)
  else if s.connector.connection ≠ drmModeConnection.DRM_MODE_CONNECTED then
    (Outcome.ok false, s)
  else
    let s1 := s.call (Event.find_crtc_for_connector s.drm_fd s.connector)
    match env.find_crtc_for_connector s1.trace with
    | none => (Outcome.exception, s1)
    | some c => (Outcome.ok c.isSome, { s1 with current_crtc := c })

/-- The loop of RealKMSOutput::reset that looks for the DPMS property. -/
def reset_find_dpms (env : Env) : List Nat → Sys → Sys
  | [], s => s
  | p :: ps, s =>
    let s1 := s.call (Event.drmModeGetProperty s.drm_fd p)
    match env.drmModeGetProperty s1.trace with
    | some prop =>
      if prop.flags &&& DRM_MODE_PROP_ENUM ≠ 0 then
        if prop.name = "DPMS" then { s1 with dpms_enum_id := p }
        else reset_find_dpms env ps s1
      else reset_find_dpms env ps s1
    | none => reset_find_dpms env ps s1

/-- RealKMSOutput::reset. -/
def reset (env : Env) (s : Sys) : Outcome Unit × Sys :=
  let s1 := s.call (Event.DRMModeResources s.drm_fd)
  if env.DRMModeResources s1.trace then
    let s2 := s1.call (Event.resources_connector s.connector_id)
    match env.resources_connector s2.trace with
    | none => (Outcome.fatal_error "e.what()", s2)
    | some c =>
      let s3 := reset_find_dpms env c.props { s2 with connector := c }
      (Outcome.ok (), { s3 with current_crtc := none })
  else (Outcome.exception, s1)

/-- The constructor of RealKMSOutput.  `s0` is the memory before construction:
its world fields are the world the object is created in, and the members the
initialiser list does not mention (dpms_enum_id, last_frame_) keep the
indeterminate value they have in `s0`; the connector pointer is null until
reset assigns it, and reset never reads it. -/
def RealKMSOutput (env : Env) (drm_fd : Int) (connector_id : Nat) (s0 : Sys) :
    Outcome Unit × Sys :=
  let s1 : Sys := { s0 with
    drm_fd := drm_fd, connector_id := connector_id, mode_index := 0,
    fb_offset := { dx := 0, dy := 0 },
    current_crtc := none, saved_crtc := drmModeCrtc.zero,
    using_saved_crtc := true, has_cursor_ := false,
    power_mode := MirPowerMode.mir_power_mode_on }
  Outcome.andThen (reset env s1) fun _ s2 =>
    let s3 := s2.call (Event.DRMModeResources drm_fd)
    if env.DRMModeResources s3.trace then
      if s3.connector.encoder_id ≠ 0 then
        let s4 := s3.call (Event.resources_encoder s3.connector.encoder_id)
        match env.resources_encoder s4.trace with
        | none => (Outcome.exception, s4)
        | some encoder =>
          if encoder.crtc_id ≠ 0 then
            let s5 := s4.call (Event.resources_crtc encoder.crtc_id)
            match env.resources_crtc s5.trace with
            | none => (Outcome.exception, s5)
            | some crtc => (Outcome.ok (), { s5 with saved_crtc := crtc })
          else (Outcome.ok (), s4)
      else (Outcome.ok (), s3)
    else (Outcome.exception, s3)

/-- RealKMSOutput::restore_saved_crtc. -/
def restore_saved_crtc (env : Env) (s : Sys) : Outcome Unit × Sys :=
  if !s.using_saved_crtc then
    let s1 := s.call (Event.drmModeSetCrtc s.drm_fd s.saved_crtc.crtc_id
      s.saved_crtc.buffer_id s.saved_crtc.x s.saved_crtc.y
      [s.connector.connector_id] (some s.saved_crtc.mode))
    let _ret := env.drmModeSetCrtc s1.trace
    (Outcome.ok (), { s1 with using_saved_crtc := true })
  else (Outcome.ok (), s)

/-- The destructor of RealKMSOutput. -/
def destructor (env : Env) (s : Sys) : Outcome Unit × Sys :=
  restore_saved_crtc env s

/-- RealKMSOutput::size. -/
def size (s : Sys) : Outcome Size :=
  match s.connector.modes.get? s.mode_index with
  | some mode => Outcome.ok { width := mode.hdisplay, height := mode.vdisplay }
  | none => Outcome.undefined

/-- RealKMSOutput::max_refresh_rate: the uint32_t vrefresh of the mode,
returned as int. -/
def max_refresh_rate (s : Sys) : Outcome Int :=
  match s.connector.modes.get? s.mode_index with
  | some current_mode => Outcome.ok (uint32_as_int current_mode.vrefresh)
  | none => Outcome.undefined

/-- RealKMSOutput::configure. -/
def configure (offset : Displacement) (kms_mode_index : Nat) (s : Sys) :
    Outcome Unit × Sys :=
  (Outcome.ok (), { s with fb_offset := offset, mode_index := kms_mode_index })

/-- RealKMSOutput::set_crtc. -/
def set_crtc (env : Env) (fb : FBHandle) (s : Sys) : Outcome Bool × Sys :=
  Outcome.andThen (ensure_crtc env s) fun ensured s1 =>
    if !ensured then
      (Outcome.ok false,
        s1.log_line Severity.error
          "Output %s has no associated CRTC to set a framebuffer on")
    else
      match s1.current_crtc, s1.connector.modes.get? s1.mode_index with
      | some crtc, some mode =>
        let s2 := s1.call (Event.drmModeSetCrtc s1.drm_fd crtc.crtc_id
          fb.get_drm_fb_id (as_uint32_t s1.fb_offset.dx) (as_uint32_t s1.fb_offset.dy)
          [s1.connector.connector_id] (some mode))
        if env.drmModeSetCrtc s2.trace ≠ 0 then
          (Outcome.ok false, { s2 with current_crtc := none })
        else
          (Outcome.ok true, { s2 with using_saved_crtc := false })
      | _, _ => (Outcome.undefined, s1)

/-- RealKMSOutput::clear_crtc.  The call of ensure_crtc sits in a try block
whose handler returns; its boolean result is not looked at. -/
def clear_crtc (env : Env) (s : Sys) : Outcome Unit × Sys :=
  match ensure_crtc env s with
  | (Outcome.ok _, s1) =>
    match s1.current_crtc with
    | some crtc =>
      let s2 := s1.call (Event.drmModeSetCrtc s1.drm_fd crtc.crtc_id 0 0 0 [] none)
      if env.drmModeSetCrtc s2.trace ≠ 0 then
        (Outcome.fatal_error "Couldn't clear output %s (drmModeSetCrtc = %d)", s2)
      else
        (Outcome.ok (), { s2 with current_crtc := none })
    | none => (Outcome.undefined, s1)
  | (Outcome.undefined, s1) => (Outcome.undefined, s1)
  | (_, s1) => (Outcome.ok (), s1)

/-- RealKMSOutput::schedule_page_flip. -/
def schedule_page_flip (env : Env) (fb : FBHandle) (s : Sys) : Outcome Bool × Sys :=
  if s.power_mode ≠ MirPowerMode.mir_power_mode_on then (Outcome.ok true, s)
  else
    match s.current_crtc with
    | none =>
      (Outcome.ok false,
        s.log_line Severity.error
          "Output %s has no associated CRTC to schedule page flips on")
    | some crtc =>
      let s1 := s.call (Event.schedule_flip crtc.crtc_id fb.get_drm_fb_id s.connector_id)
      (Outcome.ok (env.schedule_flip s1.trace), s1)

/-- RealKMSOutput::wait_for_page_flip. -/
def wait_for_page_flip (env : Env) (s : Sys) : Outcome Unit × Sys :=
  if s.power_mode ≠ MirPowerMode.mir_power_mode_on then (Outcome.ok (), s)
  else
    match s.current_crtc with
    | none => (Outcome.fatal_error "Output %s has no associated CRTC to wait on", s)
    | some crtc =>
      let s1 := s.call (Event.wait_for_flip crtc.crtc_id)
      (Outcome.ok (), { s1 with last_frame_ := env.wait_for_flip s1.trace })

/-- RealKMSOutput::last_frame. -/
def last_frame (s : Sys) : Frame := s.last_frame_

/-- RealKMSOutput::set_cursor. -/
def set_cursor (env : Env) (buffer : gbm_bo) (s : Sys) : Outcome Bool × Sys :=
  match s.current_crtc with
  | some crtc =>
    let s1 := { s with has_cursor_ := true }
    let s2 := s1.call (Event.drmModeSetCursor s.drm_fd crtc.crtc_id
      buffer.handle buffer.width buffer.height)
    let result := env.drmModeSetCursor s2.trace
    if result ≠ 0 then
      (Outcome.ok (decide (result = 0)),
        ({ s2 with has_cursor_ := false }).log_line Severity.warning
          "set_cursor: drmModeSetCursor failed (%s)")
    else (Outcome.ok (decide (result = 0)), s2)
  | none => (Outcome.ok (decide ((0 : Int) = 0)), s)

/-- RealKMSOutput::move_cursor.  The coordinates are taken as uint32_t and
handed to drmModeMoveCursor, whose parameters are int. -/
def move_cursor (env : Env) (destination : Point) (s : Sys) : Outcome Unit × Sys :=
  match s.current_crtc with
  | some crtc =>
    let s1 := s.call (Event.drmModeMoveCursor s.drm_fd crtc.crtc_id
      (uint32_as_int (as_uint32_t destination.x))
      (uint32_as_int (as_uint32_t destination.y)))
    if env.drmModeMoveCursor s1.trace ≠ 0 then
      (Outcome.ok (), s1.log_line Severity.warning
        "move_cursor: drmModeMoveCursor failed (%s)")
    else (Outcome.ok (), s1)
  | none => (Outcome.ok (), s)

/-- RealKMSOutput::clear_cursor. -/
def clear_cursor (env : Env) (s : Sys) : Outcome Bool × Sys :=
  match s.current_crtc with
  | some crtc =>
    let s1 := s.call (Event.drmModeSetCursor s.drm_fd crtc.crtc_id 0 0 0)
    let result := env.drmModeSetCursor s1.trace
    let s2 := if result ≠ 0 then
        s1.log_line Severity.warning "clear_cursor: drmModeSetCursor failed (%s)"
      else s1
    (Outcome.ok (decide (result = 0)), { s2 with has_cursor_ := false })
  | none => (Outcome.ok (decide ((0 : Int) = 0)), s)

/-- RealKMSOutput::has_cursor. -/
def has_cursor (s : Sys) : Bool := s.has_cursor_

/-- RealKMSOutput::set_power_mode. -/
def set_power_mode (env : Env) (mode : MirPowerMode) (s : Sys) : Outcome Unit × Sys :=
  if s.power_mode ≠ mode then
    let s1 := { s with power_mode := mode }
    let s2 := s1.call (Event.drmModeConnectorSetProperty s.drm_fd s.connector_id
      s.dpms_enum_id mode)
    let _ret := env.drmModeConnectorSetProperty s2.trace
    (Outcome.ok (), s2)
  else (Outcome.ok (), s)

/-- RealKMSOutput::set_gamma. -/
def set_gamma (env : Env) (gamma : GammaCurves) (s : Sys) : Outcome Unit × Sys :=
  Outcome.andThen (ensure_crtc env s) fun ensured s1 =>
    if !ensured then
      (Outcome.ok (),
        s1.log_line Severity.warning "Output %s has no associated CRTC to set gamma on")
    else if gamma.red.length ≠ gamma.green.length ∨
        gamma.green.length ≠ gamma.blue.length then
      (Outcome.invalid_argument "set_gamma: mismatch gamma LUT sizes", s1)
    else
      match s1.current_crtc with
      | some crtc =>
        let s2 := s1.call (Event.drmModeCrtcSetGamma s1.drm_fd crtc.crtc_id
          gamma.red.length gamma.red gamma.green gamma.blue)
        let ret := env.drmModeCrtcSetGamma s2.trace
        let err := -ret
        if err ≠ 0 then
          (Outcome.ok (), s2.log_line Severity.warning "drmModeCrtcSetGamma failed: %s")
        else (Outcome.ok (), s2)
      | none => (Outcome.undefined, s1)

/-- The function gbm_bo_get_user_data of libgbm. -/
def gbm_bo_get_user_data (s : Sys) (bo : gbm_bo) : Option Nat :=
  s.user_data.lookup bo.id

/-- The function gbm_bo_set_user_data of libgbm (the destroy callback is
always bo_user_data_destroy). -/
def gbm_bo_set_user_data (s : Sys) (bo : gbm_bo) (data : Nat) : Sys :=
  { s with user_data := (bo.id, data) :: s.user_data.filter (fun e => e.1 ≠ bo.id) }

/-- The format conversion inside RealKMSOutput::fb_for. -/
def fb_for_format (format : Nat) : Nat :=
  if format = GBM_BO_FORMAT_XRGB8888 then GBM_FORMAT_XRGB8888
  else if format = GBM_BO_FORMAT_ARGB8888 then GBM_FORMAT_ARGB8888
  else format

/-- RealKMSOutput::fb_for.  The result is the address of the FBHandle, none
being the null pointer. -/
def fb_for (env : Env) (bo : Option gbm_bo) (width height : Nat) (s : Sys) :
    Outcome (Option Nat) × Sys :=
  match bo with
  | none => (Outcome.ok none, s)
  | some bo =>
    match gbm_bo_get_user_data s bo with
    | some bufobj => (Outcome.ok (some bufobj), s)
    | none =>
      let format := fb_for_format bo.format
      let s1 := s.call (Event.drmModeAddFB2 s.drm_fd width height format
        [bo.handle, 0, 0, 0] [bo.stride, 0, 0, 0] [0, 0, 0, 0] 0)
      let ret := (env.drmModeAddFB2 s1.trace).1
      let fb_id := (env.drmModeAddFB2 s1.trace).2
      if ret ≠ 0 then (Outcome.ok none, s1)
      else
        let bufobj := s1.next_addr
        let s2 := { s1 with
          heap := (bufobj, { bo := bo, drm_fb_id := fb_id }) :: s1.heap,
          next_addr := bufobj + 1 }
        (Outcome.ok (some bufobj), gbm_bo_set_user_data s2 bo bufobj)

/-- RealKMSOutput::buffer_requires_migration. -/
def buffer_requires_migration (bo : gbm_bo) (s : Sys) : Bool :=
  decide (bo.device_fd ≠ s.drm_fd)

/-- The destructor of FBHandle, run on the handle at address `p`. -/
def FBHandle_destructor (p : Nat) (fb : FBHandle) (s : Sys) : Sys :=
  let s1 := if fb.drm_fb_id ≠ 0 then s.call (Event.drmModeRmFB fb.bo.device_fd fb.drm_fb_id)
    else s
  { s1 with heap := s1.heap.filter (fun e => e.1 ≠ p) }

/-- The callback bo_user_data_destroy: deletes the FBHandle at `data`. -/
def bo_user_data_destroy (data : Nat) (s : Sys) : Sys :=
  match s.heap.lookup data with
  | some fb => FBHandle_destructor data fb s
  | none => s

/-- The function gbm_bo_destroy of libgbm, as far as this object sees it: the
destroy callback registered with the user data runs and the buffer object,
with its user data slot, is gone. -/
def gbm_bo_destroy (bo : gbm_bo) (s : Sys) : Sys :=
  match gbm_bo_get_user_data s bo with
  | some data =>
    let s1 := bo_user_data_destroy data s
    { s1 with user_data := s1.user_data.filter (fun e => e.1 ≠ bo.id) }
  | none => s

/-- Every FBHandle alive on the heap is the user data attached to its
buffer object. -/
def handles_attached (s : Sys) : Prop :=
  ∀ p fb, (p, fb) ∈ s.heap → gbm_bo_get_user_data s fb.bo = some p

/-! ## Sequences of calls -/

/-- The value a call returns. -/
inductive Val where
  | unit
  | bool (b : Bool)
  | int (i : Int)
  | size (sz : Size)
  | frame (f : Frame)
  | pointer (p : Option Nat)
  deriving DecidableEq, Repr

/-- One call on the output between its construction and its destruction:
a member function of RealKMSOutput, or the destruction of a buffer object
by its owner. -/
inductive Op where
  | reset
  | size
  | max_refresh_rate
  | configure (offset : Displacement) (kms_mode_index : Nat)
  | set_crtc (fb : FBHandle)
  | clear_crtc
  | schedule_page_flip (fb : FBHandle)
  | wait_for_page_flip
  | last_frame
  | set_cursor (buffer : gbm_bo)
  | move_cursor (destination : Point)
  | clear_cursor
  | has_cursor
  | ensure_crtc
  | set_power_mode (mode : MirPowerMode)
  | set_gamma (gamma : GammaCurves)
  | fb_for (bo : Option gbm_bo) (width height : Nat)
  | buffer_requires_migration (bo : gbm_bo)
  | gbm_bo_destroy (bo : gbm_bo)
  deriving DecidableEq, Repr

/-- Maps the returned value of an outcome. -/
def Outcome.map {α β : Type} (f : α → β) : Outcome α → Outcome β
  | Outcome.ok a => Outcome.ok (f a)
  | Outcome.fatal_error m => Outcome.fatal_error m
  | Outcome.invalid_argument m => Outcome.invalid_argument m
  | Outcome.exception => Outcome.exception
  | Outcome.undefined => Outcome.undefined

/-- Performs one call. -/
def exec (env : Env) (op : Op) (s : Sys) : Outcome Val × Sys :=
  match op with
  | Op.reset => ((reset env s).1.map fun _ => Val.unit, (reset env s).2)
  | Op.size => ((size s).map Val.size, s)
  | Op.max_refresh_rate => ((max_refresh_rate s).map Val.int, s)
  | Op.configure offset i =>
    ((configure offset i s).1.map fun _ => Val.unit, (configure offset i s).2)
  | Op.set_crtc fb => ((set_crtc env fb s).1.map Val.bool, (set_crtc env fb s).2)
  | Op.clear_crtc => ((clear_crtc env s).1.map fun _ => Val.unit, (clear_crtc env s).2)
  | Op.schedule_page_flip fb =>
    ((schedule_page_flip env fb s).1.map Val.bool, (schedule_page_flip env fb s).2)
  | Op.wait_for_page_flip =>
    ((wait_for_page_flip env s).1.map fun _ => Val.unit, (wait_for_page_flip env s).2)
  | Op.last_frame => (Outcome.ok (Val.frame (last_frame s)), s)
  | Op.set_cursor buffer =>
    ((set_cursor env buffer s).1.map Val.bool, (set_cursor env buffer s).2)
  | Op.move_cursor destination =>
    ((move_cursor env destination s).1.map fun _ => Val.unit,
      (move_cursor env destination s).2)
  | Op.clear_cursor => ((clear_cursor env s).1.map Val.bool, (clear_cursor env s).2)
  | Op.has_cursor => (Outcome.ok (Val.bool (has_cursor s)), s)
  | Op.ensure_crtc => ((ensure_crtc env s).1.map Val.bool, (ensure_crtc env s).2)
  | Op.set_power_mode mode =>
    ((set_power_mode env mode s).1.map fun _ => Val.unit, (set_power_mode env mode s).2)
  | Op.set_gamma gamma =>
    ((set_gamma env gamma s).1.map fun _ => Val.unit, (set_gamma env gamma s).2)
  | Op.fb_for bo width height =>
    ((fb_for env bo width height s).1.map Val.pointer, (fb_for env bo width height s).2)
  | Op.buffer_requires_migration bo =>
    (Outcome.ok (Val.bool (buffer_requires_migration bo s)), s)
  | Op.gbm_bo_destroy bo => (Outcome.ok Val.unit, gbm_bo_destroy bo s)

/-- Performs the calls one after the other and records how each ended.  After
a call that did not return normally the next call starts from the state that
call left behind, as when the caller catches the exception. -/
def run (env : Env) : List Op → Sys → List (Op × Outcome Val) × Sys
  | [], s => ([], s)
  | op :: ops, s =>
    ((op, (exec env op s).1) :: (run env ops (exec env op s).2).1,
      (run env ops (exec env op s).2).2)

/-! ## Concrete inputs -/

/-- The mode 1920x1080 at 60 Hz. -/
def mode_1080p : drmModeModeInfo :=
  { clock := 148500, hdisplay := 1920, vdisplay := 1080, vrefresh := 60 }

/-- A connected connector with id 5, one mode and no encoder. -/
def connector_5 : drmModeConnector :=
  { connector_id := 5, encoder_id := 0,
    connection := drmModeConnection.DRM_MODE_CONNECTED,
    modes := [mode_1080p], props := [] }

/-- The controller with id 7, showing buffer 9 in mode 1920x1080. -/
def crtc_7 : drmModeCrtc :=
  { crtc_id := 7, buffer_id := 9, x := 0, y := 0, width := 1920, height := 1080,
    mode_valid := 1, mode := mode_1080p, gamma_size := 256 }

/-- An output on device 3 and connector 5, powered on, with no controller
claimed, in a world where nothing has happened yet. -/
def sys_unbound : Sys :=
  { drm_fd := 3, connector_id := 5, connector := connector_5, mode_index := 0,
    fb_offset := { dx := 0, dy := 0 }, current_crtc := none,
    saved_crtc := drmModeCrtc.zero, using_saved_crtc := true, has_cursor_ := false,
    power_mode := MirPowerMode.mir_power_mode_on, dpms_enum_id := 2,
    last_frame_ := { msc := 0, ust := 0 },
    trace := [], log := [], user_data := [], heap := [], next_addr := 1 }

/-- The output of sys_unbound with controller 7 claimed. -/
def sys_bound : Sys := { sys_unbound with current_crtc := some crtc_7 }

/-- A buffer object created on device 3. -/
def bo_1 : gbm_bo :=
  { id := 1, handle := 11, width := 1920, height := 1080, stride := 7680,
    format := GBM_BO_FORMAT_XRGB8888, device_fd := 3 }

/-- A framebuffer handle for bo_1 with kernel framebuffer id 21. -/
def fb_21 : FBHandle := { bo := bo_1, drm_fb_id := 21 }

/-- A world in which every kernel call succeeds, connector 5 is connector_5,
the controller search finds controller 7, flips are accepted and complete as
frame 1, and a registered framebuffer gets id 21. -/
def env_ok : Env :=
  { drmModeSetCrtc := fun _ => 0
    drmModeConnectorSetProperty := fun _ => 0
    drmModeCrtcSetGamma := fun _ => 0
    drmModeSetCursor := fun _ => 0
    drmModeMoveCursor := fun _ => 0
    drmModeAddFB2 := fun _ => (0, 21)
    drmModeGetProperty := fun _ => none
    DRMModeResources := fun _ => true
    resources_connector := fun _ => some connector_5
    resources_encoder := fun _ => none
    resources_crtc := fun _ => none
    find_crtc_for_connector := fun _ => some (some crtc_7)
    schedule_flip := fun _ => true
    wait_for_flip := fun _ => { msc := 1, ust := 16667 } }

/-- The world of env_ok, except that every kernel call returning an int
fails with -22 and no controller is found. -/
def env_failing : Env :=
  { env_ok with
    drmModeSetCrtc := fun _ => -22
    drmModeConnectorSetProperty := fun _ => -22
    drmModeCrtcSetGamma := fun _ => -22
    drmModeSetCursor := fun _ => -22
    drmModeMoveCursor := fun _ => -22
    drmModeAddFB2 := fun _ => (-22, 0)
    find_crtc_for_connector := fun _ => some none
    schedule_flip := fun _ => false }

/-- Connector 5 while encoder 4 drives it. -/
def connector_5_driven : drmModeConnector := { connector_5 with encoder_id := 4 }

/-- The world of env_ok in which connector 5 is already driven, through
encoder 4, by controller 7 showing buffer 9 in mode 1920x1080, as a previous
process left it; mode-set calls fail with -13. -/
def env_inherited : Env :=
  { env_ok with
    drmModeSetCrtc := fun _ => -13
    resources_connector := fun _ => some connector_5_driven
    resources_encoder := fun _ => some { encoder_id := 4, crtc_id := 7 }
    resources_crtc := fun _ => some crtc_7 }

/-- The world of env_inherited in which the first mode-set call succeeds and
every later one fails with -13. -/
def env_inherited_set_once : Env :=
  { env_inherited with
    drmModeSetCrtc := fun t =>
      if (t.filter fun e =>
          match e with
          | Event.drmModeSetCrtc _ _ _ _ _ _ _ => true
          | _ => false).length ≤ 1 then 0 else -13 }

/-- Gamma tables of lengths 2, 1 and 2. -/
def gamma_mismatched : GammaCurves := { red := [0, 65535], green := [0], blue := [0, 65535] }

/-- The output of sys_unbound with its connector disconnected. -/
def sys_disconnected : Sys :=
  { sys_unbound with
    connector := { connector_5 with
      connection := drmModeConnection.DRM_MODE_DISCONNECTED } }

/-! ## The decoration renderer (server/shell/decoration/renderer.cpp) -/

/-- MirTrustSessionState enumeration (mir_toolkit). -/
inductive MirTrustSessionState where
  | mir_trust_session_state_stopped
  | mir_trust_session_state_started
  deriving DecidableEq, Repr

/-- A call the trust session makes on a session or on its listener; sessions
are named by their identity. -/
inductive TrustEvent where
  | begin_trust_session (session : Nat)
  | end_trust_session (session : Nat)
  | trusted_session_beginning (session : Nat)
  | trusted_session_ending (session : Nat)
  deriving DecidableEq, Repr

/-- The members of ms::TrustSession (the helper and the children are weak
pointers, named by the identity of the session they point to), followed by
the outside world: the sessions that have been destroyed so far, whose weak
pointers are expired, and the calls made on sessions and on the listener. -/
structure TrustSession where
  trusted_helper : Option Nat
  state : MirTrustSessionState
  trusted_children : List Nat
  expired : List Nat
  events : List TrustEvent
  deriving DecidableEq, Repr

/-- The member lock() of a weak pointer: the session, or null when it has
been destroyed. -/
def TrustSession.lock (ts : TrustSession) (child : Nat) : Option Nat :=
  if child ∈ ts.expired then none else some child

/-- The constructor of TrustSession, in a world where the sessions of
`expired` are gone and `events` have happened. -/
def TrustSession.create (session : Option Nat) (expired : List Nat)
    (events : List TrustEvent) : TrustSession :=
  { trusted_helper := session,
    state := MirTrustSessionState.mir_trust_session_state_stopped,
    trusted_children := [], expired := expired, events := events }

/-- TrustSession::start. -/
def TrustSession.start (ts : TrustSession) : TrustSession :=
  if ts.state = MirTrustSessionState.mir_trust_session_state_started then ts
  else
    let ts1 := { ts with state := MirTrustSessionState.mir_trust_session_state_started }
    match ts1.trusted_helper.bind ts1.lock with
    | some helper =>
      { ts1 with events := ts1.events ++ [TrustEvent.begin_trust_session helper] }
    | none => ts1

/-- The loop of TrustSession::stop over the children it is given (the caller
passes them in reverse order): the events it produces. -/
def TrustSession.stop_children (ts : TrustSession) : List Nat → List TrustEvent
  | [] => []
  | child :: rest =>
    match ts.lock child with
    | some session =>
      TrustEvent.end_trust_session session :: TrustEvent.trusted_session_ending session ::
        TrustSession.stop_children ts rest
    | none => TrustSession.stop_children ts rest

/-- TrustSession::stop. -/
def TrustSession.stop (ts : TrustSession) : TrustSession :=
  if ts.state = MirTrustSessionState.mir_trust_session_state_stopped then ts
  else
    let ts1 := { ts with state := MirTrustSessionState.mir_trust_session_state_stopped }
    let ts2 := match ts1.trusted_helper.bind ts1.lock with
      | some helper =>
        { ts1 with events := ts1.events ++ [TrustEvent.end_trust_session helper] }
      | none => ts1
    { ts2 with
      events := ts2.events ++ TrustSession.stop_children ts2 ts2.trusted_children.reverse,
      trusted_children := [] }

/-- TrustSession::add_trusted_child; the session is the one a shared pointer
holds. -/
def TrustSession.add_trusted_child (session : Nat) (ts : TrustSession) :
    Bool × TrustSession :=
  if ts.state = MirTrustSessionState.mir_trust_session_state_stopped then (false, ts)
  else if ts.trusted_children.any (fun child => ts.lock child = some session) then
    (false, ts)
  else
    (true,
      { ts with
        trusted_children := ts.trusted_children ++ [session],
        events := ts.events ++ [TrustEvent.begin_trust_session session,
          TrustEvent.trusted_session_beginning session] })

/-- The loop of TrustSession::remove_trusted_child: the children without the
first one whose lock() is the session, or none when there is no such child. -/
def TrustSession.erase_child (ts : TrustSession) (session : Nat) :
    List Nat → Option (List Nat)
  | [] => none
  | child :: rest =>
    if ts.lock child = some session then some rest
    else (TrustSession.erase_child ts session rest).map (fun r => child :: r)

/-- TrustSession::remove_trusted_child. -/
def TrustSession.remove_trusted_child (session : Nat) (ts : TrustSession) : TrustSession :=
  if ts.state = MirTrustSessionState.mir_trust_session_state_stopped then ts
  else
    match TrustSession.erase_child ts session ts.trusted_children with
    | some children =>
      { ts with
        trusted_children := children,
        events := ts.events ++ [TrustEvent.end_trust_session session,
          TrustEvent.trusted_session_ending session] }
    | none => ts

/-- One step in the life of a trust session: a call of a member function, or
the destruction of a session somewhere else, after which the weak pointers
to it are expired. -/
inductive TrustOp where
  | start
  | stop
  | add_trusted_child (session : Nat)
  | remove_trusted_child (session : Nat)
  | session_destroyed (session : Nat)
  deriving DecidableEq, Repr

/-- Performs one step. -/
def TrustSession.step (ts : TrustSession) : TrustOp → TrustSession
  | TrustOp.start => ts.start
  | TrustOp.stop => ts.stop
  | TrustOp.add_trusted_child session => (ts.add_trusted_child session).2
  | TrustOp.remove_trusted_child session => ts.remove_trusted_child session
  | TrustOp.session_destroyed session => { ts with expired := session :: ts.expired }

/-- Performs the steps one after the other. -/
def TrustSession.steps (ts : TrustSession) : List TrustOp → TrustSession
  | [] => ts
  | op :: ops => TrustSession.steps (ts.step op) ops

/-- The trusted children whose session still exists. -/
def TrustSession.live_children (ts : TrustSession) : List Nat :=
  ts.trusted_children.filter (fun child => (ts.lock child).isSome)

/-- A mode 1920x1080 whose vrefresh field holds the largest uint32_t. -/
def mode_vrefresh_max : drmModeModeInfo :=
  { clock := 148500, hdisplay := 1920, vdisplay := 1080, vrefresh := 4294967295 }

/-- The bound output on a connector whose only mode is mode_vrefresh_max. -/
def sys_bound_vrefresh_max : Sys :=
  { sys_bound with connector := { connector_5 with modes := [mode_vrefresh_max] } }

/-- C1 as stated fails: with no controller claimed and the power state off,
schedule_page_flip returns true, not false. -/
theorem schedule_page_flip_unbound_off_returns_true :
    ({ sys_unbound with power_mode := MirPowerMode.mir_power_mode_off } : Sys).current_crtc
        = none ∧
      schedule_page_flip env_ok fb_21
          { sys_unbound with power_mode := MirPowerMode.mir_power_mode_off }
        = (Outcome.ok true,
            { sys_unbound with power_mode := MirPowerMode.mir_power_mode_off }) := by
  decide

/-- C1, amended: in every state with no controller claimed, schedule_page_flip
performs no external call (neither page flipper nor kernel) and changes no
member of the output, and it returns false exactly when the power state is
on (it returns true when the power state is not on). -/
theorem schedule_page_flip_unbound (env : Env) (fb : FBHandle) (s : Sys)
    (h : s.current_crtc = none) :
    (schedule_page_flip env fb s).1
        = Outcome.ok (decide (s.power_mode ≠ MirPowerMode.mir_power_mode_on)) ∧
      (schedule_page_flip env fb s).2.trace = s.trace ∧
      { (schedule_page_flip env fb s).2 with log := s.log } = s := by
  cases s
  simp only at h
  subst h
  unfold schedule_page_flip
  split <;> simp_all [Sys.log_line]

/-- Witness of C1 amended: the unbound, powered-on output. -/
theorem schedule_page_flip_unbound_witness :
    sys_unbound.current_crtc = none ∧
      (schedule_page_flip env_ok fb_21 sys_unbound).1 = Outcome.ok false ∧
      (schedule_page_flip env_ok fb_21 sys_unbound).2.trace = [] :=
  ⟨rfl, by
    have h := schedule_page_flip_unbound env_ok fb_21 sys_unbound rfl
    exact ⟨h.1, h.2.1⟩⟩

/-- C2: while the power state is not on, with or without a controller,
schedule_page_flip returns true and wait_for_page_flip returns normally, and
both leave the whole state as it was: no call of the page flipper, no change
of last_frame(). -/
theorem page_flip_power_not_on (env : Env) (fb : FBHandle) (s : Sys)
    (h : s.power_mode ≠ MirPowerMode.mir_power_mode_on) :
    schedule_page_flip env fb s = (Outcome.ok true, s) ∧
      wait_for_page_flip env s = (Outcome.ok (), s) ∧
      last_frame (wait_for_page_flip env s).2 = last_frame s ∧
      last_frame (schedule_page_flip env fb s).2 = last_frame s := by
  simp [schedule_page_flip, wait_for_page_flip, h]

/-- Witness of C2: the bound output in standby. -/
theorem page_flip_power_not_on_witness :
    schedule_page_flip env_ok fb_21
        { sys_bound with power_mode := MirPowerMode.mir_power_mode_standby }
      = (Outcome.ok true,
          { sys_bound with power_mode := MirPowerMode.mir_power_mode_standby }) :=
  (page_flip_power_not_on env_ok fb_21
    { sys_bound with power_mode := MirPowerMode.mir_power_mode_standby }
    (by decide)).1

/-- C9: with the power state on and a controller claimed, schedule_page_flip
issues exactly one flip request, carrying the controller id, the kernel
framebuffer id of the handle and the connector id, and returns what the page
flipper answered; nothing else changes, in particular neither the binding nor
the power state. -/
theorem schedule_page_flip_bound_on (env : Env) (fb : FBHandle) (s : Sys)
    (crtc : drmModeCrtc) (hp : s.power_mode = MirPowerMode.mir_power_mode_on)
    (hc : s.current_crtc = some crtc) :
    schedule_page_flip env fb s
        = (Outcome.ok (env.schedule_flip
              (s.trace ++ [Event.schedule_flip crtc.crtc_id fb.drm_fb_id s.connector_id])),
            { s with trace :=
                s.trace ++ [Event.schedule_flip crtc.crtc_id fb.drm_fb_id s.connector_id] }) ∧
      (schedule_page_flip env fb s).2.current_crtc = s.current_crtc ∧
      (schedule_page_flip env fb s).2.power_mode = s.power_mode := by
  simp [schedule_page_flip, hp, hc, Sys.call, FBHandle.get_drm_fb_id]

/-- Witness of C9: the bound output, once with an accepting and once with a
rejecting page flipper. -/
theorem schedule_page_flip_bound_on_witness :
    (schedule_page_flip env_ok fb_21 sys_bound).1 = Outcome.ok true ∧
      (schedule_page_flip env_failing fb_21 sys_bound).1 = Outcome.ok false ∧
      (schedule_page_flip env_ok fb_21 sys_bound).2.trace = [Event.schedule_flip 7 21 5] :=
  ⟨by rw [(schedule_page_flip_bound_on env_ok fb_21 sys_bound crtc_7 rfl rfl).1]; rfl,
   by rw [(schedule_page_flip_bound_on env_failing fb_21 sys_bound crtc_7 rfl rfl).1]; rfl,
   by rw [(schedule_page_flip_bound_on env_ok fb_21 sys_bound crtc_7 rfl rfl).1]; rfl⟩

/-! ### Frame lemmas -/

/-- The DPMS search of reset touches only the trace and dpms_enum_id. -/
theorem reset_find_dpms_frame (env : Env) (ps : List Nat) (s : Sys) :
    ∃ t d, reset_find_dpms env ps s = { s with trace := t, dpms_enum_id := d } := by
  induction ps generalizing s with
  | nil => exact ⟨s.trace, s.dpms_enum_id, rfl⟩
  | cons p ps ih =>
    unfold reset_find_dpms
    simp only []
    split
    · split
      · split
        · exact ⟨_, _, rfl⟩
        · obtain ⟨t, d, h⟩ := ih (s.call (Event.drmModeGetProperty s.drm_fd p))
          exact ⟨t, d, by rw [h]; rfl⟩
      · obtain ⟨t, d, h⟩ := ih (s.call (Event.drmModeGetProperty s.drm_fd p))
        exact ⟨t, d, by rw [h]; rfl⟩
    · obtain ⟨t, d, h⟩ := ih (s.call (Event.drmModeGetProperty s.drm_fd p))
      exact ⟨t, d, by rw [h]; rfl⟩

/-- The members ensure_crtc leaves alone. -/
theorem ensure_crtc_keeps (env : Env) (s : Sys) :
    (ensure_crtc env s).2.drm_fd = s.drm_fd ∧
      (ensure_crtc env s).2.saved_crtc = s.saved_crtc ∧
      (ensure_crtc env s).2.using_saved_crtc = s.using_saved_crtc ∧
      (ensure_crtc env s).2.last_frame_ = s.last_frame_ ∧
      (ensure_crtc env s).2.user_data = s.user_data ∧
      (ensure_crtc env s).2.heap = s.heap := by
  unfold ensure_crtc
  repeat (first | split | simp [Sys.call])

/-- The members reset leaves alone. -/
theorem reset_keeps (env : Env) (s : Sys) :
    (reset env s).2.drm_fd = s.drm_fd ∧
      (reset env s).2.saved_crtc = s.saved_crtc ∧
      (reset env s).2.using_saved_crtc = s.using_saved_crtc ∧
      (reset env s).2.last_frame_ = s.last_frame_ ∧
      (reset env s).2.user_data = s.user_data ∧
      (reset env s).2.heap = s.heap := by
  simp only [reset]
  split
  · split
    · simp [Sys.call]
    · rename_i c _
      obtain ⟨t, d, hr⟩ := reset_find_dpms_frame env c.props
        { (s.call (Event.DRMModeResources s.drm_fd)).call
            (Event.resources_connector s.connector_id) with connector := c }
      simp only [hr]
      simp [Sys.call]
  · simp [Sys.call]

/-- The members set_crtc leaves alone. -/
theorem set_crtc_keeps (env : Env) (fb : FBHandle) (s : Sys) :
    (set_crtc env fb s).2.drm_fd = s.drm_fd ∧
      (set_crtc env fb s).2.saved_crtc = s.saved_crtc ∧
      (set_crtc env fb s).2.last_frame_ = s.last_frame_ ∧
      (set_crtc env fb s).2.user_data = s.user_data ∧
      (set_crtc env fb s).2.heap = s.heap := by
  have he := ensure_crtc_keeps env s
  unfold set_crtc
  generalize ensure_crtc env s = r at he
  obtain ⟨o, s1⟩ := r
  cases o <;> simp only [Outcome.andThen] <;>
    repeat (first | split | simp_all [Sys.call, Sys.log_line])

/-- A set_crtc that does not return true leaves using_saved_crtc alone; one
that returns true clears it. -/
theorem set_crtc_using_saved_crtc (env : Env) (fb : FBHandle) (s : Sys) :
    (set_crtc env fb s).2.using_saved_crtc
      = (if (set_crtc env fb s).1 = Outcome.ok true then false else s.using_saved_crtc) := by
  have he := ensure_crtc_keeps env s
  unfold set_crtc
  generalize ensure_crtc env s = r at he
  obtain ⟨o, s1⟩ := r
  cases o <;> simp only [Outcome.andThen] <;>
    repeat (first | split | simp_all [Sys.call, Sys.log_line])

/-- The members clear_crtc leaves alone. -/
theorem clear_crtc_keeps (env : Env) (s : Sys) :
    (clear_crtc env s).2.drm_fd = s.drm_fd ∧
      (clear_crtc env s).2.saved_crtc = s.saved_crtc ∧
      (clear_crtc env s).2.using_saved_crtc = s.using_saved_crtc ∧
      (clear_crtc env s).2.last_frame_ = s.last_frame_ ∧
      (clear_crtc env s).2.user_data = s.user_data ∧
      (clear_crtc env s).2.heap = s.heap := by
  have he := ensure_crtc_keeps env s
  unfold clear_crtc
  generalize ensure_crtc env s = r at he
  obtain ⟨o, s1⟩ := r
  cases o <;> simp only [] <;>
    repeat (first | split | simp_all [Sys.call, Sys.log_line])

/-- The members set_gamma leaves alone. -/
theorem set_gamma_keeps (env : Env) (gamma : GammaCurves) (s : Sys) :
    (set_gamma env gamma s).2.drm_fd = s.drm_fd ∧
      (set_gamma env gamma s).2.saved_crtc = s.saved_crtc ∧
      (set_gamma env gamma s).2.using_saved_crtc = s.using_saved_crtc ∧
      (set_gamma env gamma s).2.last_frame_ = s.last_frame_ ∧
      (set_gamma env gamma s).2.user_data = s.user_data ∧
      (set_gamma env gamma s).2.heap = s.heap := by
  have he := ensure_crtc_keeps env s
  unfold set_gamma
  generalize ensure_crtc env s = r at he
  obtain ⟨o, s1⟩ := r
  cases o <;> simp only [Outcome.andThen] <;>
    repeat (first | split | simp_all [Sys.call, Sys.log_line])

/-- The members fb_for leaves alone: every member of the output. -/
theorem fb_for_keeps (env : Env) (bo : Option gbm_bo) (width height : Nat) (s : Sys) :
    (fb_for env bo width height s).2.drm_fd = s.drm_fd ∧
      (fb_for env bo width height s).2.saved_crtc = s.saved_crtc ∧
      (fb_for env bo width height s).2.using_saved_crtc = s.using_saved_crtc ∧
      (fb_for env bo width height s).2.last_frame_ = s.last_frame_ := by
  unfold fb_for
  repeat (first | split | simp_all [Sys.call, gbm_bo_set_user_data])

/-- The members the destruction of a buffer object leaves alone: every member
of the output. -/
theorem gbm_bo_destroy_keeps (bo : gbm_bo) (s : Sys) :
    (gbm_bo_destroy bo s).drm_fd = s.drm_fd ∧
      (gbm_bo_destroy bo s).saved_crtc = s.saved_crtc ∧
      (gbm_bo_destroy bo s).using_saved_crtc = s.using_saved_crtc ∧
      (gbm_bo_destroy bo s).last_frame_ = s.last_frame_ := by
  unfold gbm_bo_destroy bo_user_data_destroy FBHandle_destructor
  repeat (first | split | simp_all [Sys.call])

/-- The members the remaining calls leave alone. -/
theorem simple_calls_keep (env : Env) (s : Sys) (fb : FBHandle) (buffer : gbm_bo)
    (destination : Point) (mode : MirPowerMode) (offset : Displacement) (i : Nat)
    (t : Sys)
    (ht : t = (configure offset i s).2 ∨ t = (schedule_page_flip env fb s).2 ∨
      t = (set_cursor env buffer s).2 ∨ t = (move_cursor env destination s).2 ∨
      t = (clear_cursor env s).2 ∨ t = (set_power_mode env mode s).2) :
    t.drm_fd = s.drm_fd ∧ t.saved_crtc = s.saved_crtc ∧
      t.using_saved_crtc = s.using_saved_crtc ∧ t.last_frame_ = s.last_frame_ ∧
      t.user_data = s.user_data ∧ t.heap = s.heap := by
  rcases ht with h | h | h | h | h | h <;> subst h
  · simp [configure]
  · unfold schedule_page_flip
    repeat (first | split | simp_all [Sys.call, Sys.log_line])
  · unfold set_cursor
    repeat (first | split | simp_all [Sys.call, Sys.log_line])
  · unfold move_cursor
    repeat (first | split | simp_all [Sys.call, Sys.log_line])
  · unfold clear_cursor
    repeat (first | split | simp_all [Sys.call, Sys.log_line])
  · unfold set_power_mode
    repeat (first | split | simp_all [Sys.call, Sys.log_line])

/-- The members wait_for_page_flip leaves alone. -/
theorem wait_for_page_flip_keeps (env : Env) (s : Sys) :
    (wait_for_page_flip env s).2.drm_fd = s.drm_fd ∧
      (wait_for_page_flip env s).2.saved_crtc = s.saved_crtc ∧
      (wait_for_page_flip env s).2.using_saved_crtc = s.using_saved_crtc ∧
      (wait_for_page_flip env s).2.user_data = s.user_data ∧
      (wait_for_page_flip env s).2.heap = s.heap := by
  unfold wait_for_page_flip
  repeat (first | split | simp_all [Sys.call, Sys.log_line])

/-- No call changes the device, the saved controller state, or (apart from
wait_for_page_flip) the last frame. -/
theorem exec_keeps (env : Env) (op : Op) (s : Sys) :
    (exec env op s).2.drm_fd = s.drm_fd ∧
      (exec env op s).2.saved_crtc = s.saved_crtc ∧
      (op ≠ Op.wait_for_page_flip → (exec env op s).2.last_frame_ = s.last_frame_) := by
  cases op
  case reset => exact ⟨(reset_keeps env s).1, (reset_keeps env s).2.1,
    fun _ => (reset_keeps env s).2.2.2.1⟩
  case size => exact ⟨rfl, rfl, fun _ => rfl⟩
  case max_refresh_rate => exact ⟨rfl, rfl, fun _ => rfl⟩
  case configure offset i => exact ⟨rfl, rfl, fun _ => rfl⟩
  case set_crtc fb => exact ⟨(set_crtc_keeps env fb s).1, (set_crtc_keeps env fb s).2.1,
    fun _ => (set_crtc_keeps env fb s).2.2.1⟩
  case clear_crtc => exact ⟨(clear_crtc_keeps env s).1, (clear_crtc_keeps env s).2.1,
    fun _ => (clear_crtc_keeps env s).2.2.2.1⟩
  case schedule_page_flip fb =>
    have h := simple_calls_keep env s fb bo_1 ⟨0, 0⟩ s.power_mode ⟨0, 0⟩ 0
      (schedule_page_flip env fb s).2 (Or.inr (Or.inl rfl))
    exact ⟨h.1, h.2.1, fun _ => h.2.2.2.1⟩
  case wait_for_page_flip =>
    exact ⟨(wait_for_page_flip_keeps env s).1, (wait_for_page_flip_keeps env s).2.1,
      fun h => absurd rfl h⟩
  case last_frame => exact ⟨rfl, rfl, fun _ => rfl⟩
  case set_cursor buffer =>
    have h := simple_calls_keep env s fb_21 buffer ⟨0, 0⟩ s.power_mode ⟨0, 0⟩ 0
      (set_cursor env buffer s).2 (Or.inr (Or.inr (Or.inl rfl)))
    exact ⟨h.1, h.2.1, fun _ => h.2.2.2.1⟩
  case move_cursor destination =>
    have h := simple_calls_keep env s fb_21 bo_1 destination s.power_mode ⟨0, 0⟩ 0
      (move_cursor env destination s).2 (Or.inr (Or.inr (Or.inr (Or.inl rfl))))
    exact ⟨h.1, h.2.1, fun _ => h.2.2.2.1⟩
  case clear_cursor =>
    have h := simple_calls_keep env s fb_21 bo_1 ⟨0, 0⟩ s.power_mode ⟨0, 0⟩ 0
      (clear_cursor env s).2 (Or.inr (Or.inr (Or.inr (Or.inr (Or.inl rfl)))))
    exact ⟨h.1, h.2.1, fun _ => h.2.2.2.1⟩
  case has_cursor => exact ⟨rfl, rfl, fun _ => rfl⟩
  case ensure_crtc => exact ⟨(ensure_crtc_keeps env s).1, (ensure_crtc_keeps env s).2.1,
    fun _ => (ensure_crtc_keeps env s).2.2.2.1⟩
  case set_power_mode mode =>
    have h := simple_calls_keep env s fb_21 bo_1 ⟨0, 0⟩ mode ⟨0, 0⟩ 0
      (set_power_mode env mode s).2 (Or.inr (Or.inr (Or.inr (Or.inr (Or.inr rfl)))))
    exact ⟨h.1, h.2.1, fun _ => h.2.2.2.1⟩
  case set_gamma gamma => exact ⟨(set_gamma_keeps env gamma s).1,
    (set_gamma_keeps env gamma s).2.1, fun _ => (set_gamma_keeps env gamma s).2.2.2.1⟩
  case fb_for bo width height => exact ⟨(fb_for_keeps env bo width height s).1,
    (fb_for_keeps env bo width height s).2.1,
    fun _ => (fb_for_keeps env bo width height s).2.2.2⟩
  case buffer_requires_migration bo => exact ⟨rfl, rfl, fun _ => rfl⟩
  case gbm_bo_destroy bo => exact ⟨(gbm_bo_destroy_keeps bo s).1,
    (gbm_bo_destroy_keeps bo s).2.1, fun _ => (gbm_bo_destroy_keeps bo s).2.2.2⟩

/-- Only a set_crtc that returns true changes using_saved_crtc, and it sets
it to false. -/
theorem exec_using_saved_crtc (env : Env) (op : Op) (s : Sys) :
    (exec env op s).2.using_saved_crtc = s.using_saved_crtc ∨
      ((∃ fb, op = Op.set_crtc fb) ∧ (exec env op s).1 = Outcome.ok (Val.bool true) ∧
        (exec env op s).2.using_saved_crtc = false) := by
  cases op
  case reset => exact Or.inl (reset_keeps env s).2.2.1
  case size => exact Or.inl rfl
  case max_refresh_rate => exact Or.inl rfl
  case configure offset i => exact Or.inl rfl
  case set_crtc fb =>
    have h := set_crtc_using_saved_crtc env fb s
    by_cases hr : (set_crtc env fb s).1 = Outcome.ok true
    · right
      refine ⟨⟨fb, rfl⟩, ?_, ?_⟩
      · simp [exec, hr, Outcome.map]
      · simpa [exec, hr] using h
    · left
      simpa [exec, hr] using h
  case clear_crtc => exact Or.inl (clear_crtc_keeps env s).2.2.1
  case schedule_page_flip fb =>
    exact Or.inl (simple_calls_keep env s fb bo_1 ⟨0, 0⟩ s.power_mode ⟨0, 0⟩ 0
      (schedule_page_flip env fb s).2 (Or.inr (Or.inl rfl))).2.2.1
  case wait_for_page_flip => exact Or.inl (wait_for_page_flip_keeps env s).2.2.1
  case last_frame => exact Or.inl rfl
  case set_cursor buffer =>
    exact Or.inl (simple_calls_keep env s fb_21 buffer ⟨0, 0⟩ s.power_mode ⟨0, 0⟩ 0
      (set_cursor env buffer s).2 (Or.inr (Or.inr (Or.inl rfl)))).2.2.1
  case move_cursor destination =>
    exact Or.inl (simple_calls_keep env s fb_21 bo_1 destination s.power_mode ⟨0, 0⟩ 0
      (move_cursor env destination s).2 (Or.inr (Or.inr (Or.inr (Or.inl rfl))))).2.2.1
  case clear_cursor =>
    exact Or.inl (simple_calls_keep env s fb_21 bo_1 ⟨0, 0⟩ s.power_mode ⟨0, 0⟩ 0
      (clear_cursor env s).2 (Or.inr (Or.inr (Or.inr (Or.inr (Or.inl rfl)))))).2.2.1
  case has_cursor => exact Or.inl rfl
  case ensure_crtc => exact Or.inl (ensure_crtc_keeps env s).2.2.1
  case set_power_mode mode =>
    exact Or.inl (simple_calls_keep env s fb_21 bo_1 ⟨0, 0⟩ mode ⟨0, 0⟩ 0
      (set_power_mode env mode s).2 (Or.inr (Or.inr (Or.inr (Or.inr (Or.inr rfl)))))).2.2.1
  case set_gamma gamma => exact Or.inl (set_gamma_keeps env gamma s).2.2.1
  case fb_for bo width height => exact Or.inl (fb_for_keeps env bo width height s).2.2.1
  case buffer_requires_migration bo => exact Or.inl rfl
  case gbm_bo_destroy bo => exact Or.inl (gbm_bo_destroy_keeps bo s).2.2.1

/-- A sequence of calls changes neither the device nor the saved controller
state. -/
theorem run_keeps (env : Env) (ops : List Op) (s : Sys) :
    (run env ops s).2.drm_fd = s.drm_fd ∧ (run env ops s).2.saved_crtc = s.saved_crtc := by
  induction ops generalizing s with
  | nil => exact ⟨rfl, rfl⟩
  | cons op ops ih =>
    simp only [run]
    have h := ih (exec env op s).2
    have h1 := exec_keeps env op s
    exact ⟨h.1.trans h1.1, h.2.trans h1.2.1⟩

/-- Once using_saved_crtc is false, it stays false until destruction. -/
theorem run_using_saved_crtc_false (env : Env) (ops : List Op) (s : Sys)
    (h : s.using_saved_crtc = false) : (run env ops s).2.using_saved_crtc = false := by
  induction ops generalizing s with
  | nil => exact h
  | cons op ops ih =>
    simp only [run]
    apply ih
    rcases exec_using_saved_crtc env op s with h1 | ⟨_, _, h1⟩
    · rw [h1, h]
    · exact h1

/-- After a sequence of calls in which some set_crtc returned true,
using_saved_crtc is false. -/
theorem run_set_crtc_succeeded (env : Env) (ops : List Op) (s : Sys) (fb : FBHandle)
    (h : (Op.set_crtc fb, Outcome.ok (Val.bool true)) ∈ (run env ops s).1) :
    (run env ops s).2.using_saved_crtc = false := by
  induction ops generalizing s with
  | nil => simp [run] at h
  | cons op ops ih =>
    simp only [run, List.mem_cons] at h ⊢
    rcases h with h | h
    · apply run_using_saved_crtc_false
      have hop : op = Op.set_crtc fb := (Prod.mk.inj h).1.symm
      have hres : (exec env op s).1 = Outcome.ok (Val.bool true) := (Prod.mk.inj h).2.symm
      subst hop
      have h3 : (set_crtc env fb s).1 = Outcome.ok true := by
        simp only [exec] at hres
        generalize (set_crtc env fb s).1 = o at hres
        cases o <;> simp [Outcome.map] at hres
        rw [hres]
      show (set_crtc env fb s).2.using_saved_crtc = false
      rw [set_crtc_using_saved_crtc, if_pos h3]
    · exact ih _ h

/-- After a sequence of calls in which no set_crtc returned true,
using_saved_crtc is what it was. -/
theorem run_no_set_crtc_succeeded (env : Env) (ops : List Op) (s : Sys)
    (h : ∀ fb, (Op.set_crtc fb, Outcome.ok (Val.bool true)) ∉ (run env ops s).1) :
    (run env ops s).2.using_saved_crtc = s.using_saved_crtc := by
  induction ops generalizing s with
  | nil => rfl
  | cons op ops ih =>
    simp only [run, List.mem_cons, not_or] at h ⊢
    rw [ih _ (fun fb => (h fb).2)]
    rcases exec_using_saved_crtc env op s with h1 | ⟨⟨fb, hop⟩, hres, _⟩
    · exact h1
    · exact absurd (by rw [hop, ← hres, hop]) (h fb).1

/-- The frame of reset: it touches only the trace, the connector snapshot,
dpms_enum_id and the binding, and when it returns the binding is empty. -/
theorem reset_frame (env : Env) (s : Sys) :
    ∃ t c d cc, (reset env s).2
        = { s with trace := t, connector := c, dpms_enum_id := d, current_crtc := cc } ∧
      ((reset env s).1 = Outcome.ok () → cc = none) := by
  simp only [reset]
  split
  · split
    · exact ⟨_, s.connector, s.dpms_enum_id, s.current_crtc, rfl, by simp⟩
    · rename_i c _
      obtain ⟨t, d, hr⟩ := reset_find_dpms_frame env c.props
        { (s.call (Event.DRMModeResources s.drm_fd)).call
            (Event.resources_connector s.connector_id) with connector := c }
      simp only [hr]
      exact ⟨t, c, d, none, rfl, fun _ => rfl⟩
  · exact ⟨_, s.connector, s.dpms_enum_id, s.current_crtc, rfl, by simp⟩

/-- What a successful construction establishes. -/
theorem RealKMSOutput_ok (env : Env) (drm_fd : Int) (connector_id : Nat) (s0 s : Sys)
    (h : RealKMSOutput env drm_fd connector_id s0 = (Outcome.ok (), s)) :
    s.drm_fd = drm_fd ∧ s.connector_id = connector_id ∧ s.current_crtc = none ∧
      s.using_saved_crtc = true ∧ s.power_mode = MirPowerMode.mir_power_mode_on ∧
      s.mode_index = 0 ∧ s.has_cursor_ = false := by
  unfold RealKMSOutput at h
  simp only [] at h
  generalize hs1 : ({ s0 with
    drm_fd := drm_fd, connector_id := connector_id, mode_index := 0,
    fb_offset := { dx := 0, dy := 0 },
    current_crtc := none, saved_crtc := drmModeCrtc.zero,
    using_saved_crtc := true, has_cursor_ := false,
    power_mode := MirPowerMode.mir_power_mode_on } : Sys) = s1 at h
  obtain ⟨t, c, d, cc, hr, hok⟩ := reset_frame env s1
  generalize reset env s1 = r at h hr hok
  obtain ⟨o, s2⟩ := r
  cases o <;> simp only [Outcome.andThen] at h
  case ok u =>
    have hcc := hok rfl
    clear hok
    simp only at hr
    subst hr hcc hs1
    simp only [Sys.call] at h
    repeat' (split at h)
    all_goals (cases h <;> simp)
  all_goals simp at h

/-- The calls a sequence records are the calls it was given. -/
theorem run_ops (env : Env) (ops : List Op) (s : Sys) :
    (run env ops s).1.map Prod.fst = ops := by
  induction ops generalizing s with
  | nil => rfl
  | cons op ops ih => simp [run, ih]

/-! ### Restoration at destruction -/

/-- C6 as stated fails: an output that inherits controller 7 showing buffer 9
in mode 1920x1080 and is destroyed without any call in between issues no
kernel mode-set call; the trace holds only the queries of the construction. -/
theorem destructor_after_inheriting_issues_no_call :
    (RealKMSOutput env_inherited 3 5 sys_unbound).1 = Outcome.ok () ∧
      (RealKMSOutput env_inherited 3 5 sys_unbound).2.saved_crtc = crtc_7 ∧
      (destructor env_inherited (RealKMSOutput env_inherited 3 5 sys_unbound).2).2.trace
        = [Event.DRMModeResources 3, Event.resources_connector 5,
            Event.DRMModeResources 3, Event.resources_encoder 4,
            Event.resources_crtc 7] := by
  decide

/-- C6, amended: on a constructed output (inheriting a controller or not) on
which set_crtc is never called, whatever else is called, the destructor
returns without any external call and without changing anything, and the
saved controller state is still the one captured at construction. -/
theorem destructor_without_set_crtc (env : Env) (drm_fd : Int) (connector_id : Nat)
    (s0 s : Sys) (ops : List Op)
    (hc : RealKMSOutput env drm_fd connector_id s0 = (Outcome.ok (), s))
    (hops : ∀ fb, Op.set_crtc fb ∉ ops) :
    destructor env (run env ops s).2 = (Outcome.ok (), (run env ops s).2) ∧
      (run env ops s).2.saved_crtc = s.saved_crtc := by
  have hu : (run env ops s).2.using_saved_crtc = true := by
    rw [run_no_set_crtc_succeeded env ops s]
    · exact (RealKMSOutput_ok env drm_fd connector_id s0 s hc).2.2.2.1
    · intro fb hmem
      apply hops fb
      rw [← run_ops env ops s]
      exact List.mem_map_of_mem Prod.fst hmem
  refine ⟨?_, (run_keeps env ops s).2⟩
  simp [destructor, restore_saved_crtc, hu]

/-- Witness of C6 amended: the inheriting output, reset and powered down but
never given a set_crtc. -/
theorem destructor_without_set_crtc_witness :
    (run env_inherited [Op.reset, Op.set_power_mode MirPowerMode.mir_power_mode_off]
        (RealKMSOutput env_inherited 3 5 sys_unbound).2).2.saved_crtc = crtc_7 ∧
      destructor env_inherited
          (run env_inherited [Op.reset, Op.set_power_mode MirPowerMode.mir_power_mode_off]
            (RealKMSOutput env_inherited 3 5 sys_unbound).2).2
        = (Outcome.ok (),
          (run env_inherited [Op.reset, Op.set_power_mode MirPowerMode.mir_power_mode_off]
            (RealKMSOutput env_inherited 3 5 sys_unbound).2).2) :=
  have h := destructor_without_set_crtc env_inherited 3 5 sys_unbound
    (RealKMSOutput env_inherited 3 5 sys_unbound).2
    [Op.reset, Op.set_power_mode MirPowerMode.mir_power_mode_off] (by decide)
    (by intro fb hmem; simp at hmem)
  ⟨h.2.trans (by decide), h.1⟩

/-- C7: on a constructed output, after any sequence of calls in which no
set_crtc returned true, the destructor returns without any external call, so
no restoring mode-set call is issued. -/
theorem destructor_no_restore_unless_set_crtc (env : Env) (drm_fd : Int)
    (connector_id : Nat) (s0 s : Sys) (ops : List Op)
    (hc : RealKMSOutput env drm_fd connector_id s0 = (Outcome.ok (), s))
    (h : ∀ fb, (Op.set_crtc fb, Outcome.ok (Val.bool true)) ∉ (run env ops s).1) :
    destructor env (run env ops s).2 = (Outcome.ok (), (run env ops s).2) := by
  have hu : (run env ops s).2.using_saved_crtc = true := by
    rw [run_no_set_crtc_succeeded env ops s h]
    exact (RealKMSOutput_ok env drm_fd connector_id s0 s hc).2.2.2.1
  simp [destructor, restore_saved_crtc, hu]

/-- Witness of C7: the scenario ensure_crtc, schedule_page_flip,
wait_for_page_flip on an output with no previous binding; the three calls
leave the trace and the destructor adds nothing to it. -/
theorem destructor_no_restore_unless_set_crtc_witness :
    (destructor env_ok
        (run env_ok [Op.ensure_crtc, Op.schedule_page_flip fb_21, Op.wait_for_page_flip]
          (RealKMSOutput env_ok 3 5 sys_unbound).2).2).2.trace
      = [Event.DRMModeResources 3, Event.resources_connector 5, Event.DRMModeResources 3,
          Event.find_crtc_for_connector 3 connector_5, Event.schedule_flip 7 21 5,
          Event.wait_for_flip 7] := by
  rw [destructor_no_restore_unless_set_crtc env_ok 3 5 sys_unbound
    (RealKMSOutput env_ok 3 5 sys_unbound).2
    [Op.ensure_crtc, Op.schedule_page_flip fb_21, Op.wait_for_page_flip] (by decide)
    (by intro fb hmem; simp [run, exec] at hmem)]
  decide

/-- C8: on a constructed output, after any sequence of calls in which some
set_crtc returned true, the saved controller state is still the one captured
at construction, and the destructor issues exactly one external call, the
kernel mode-set call with the captured controller id, buffer id, x, y and
mode for this connector; it returns normally whatever the kernel answers. -/
theorem destructor_restores_saved_crtc (env : Env) (drm_fd : Int) (connector_id : Nat)
    (s0 s : Sys) (ops : List Op) (fb : FBHandle)
    (hc : RealKMSOutput env drm_fd connector_id s0 = (Outcome.ok (), s))
    (h : (Op.set_crtc fb, Outcome.ok (Val.bool true)) ∈ (run env ops s).1) :
    (run env ops s).2.saved_crtc = s.saved_crtc ∧
      destructor env (run env ops s).2
        = (Outcome.ok (),
          { (run env ops s).2 with
            trace := (run env ops s).2.trace ++
              [Event.drmModeSetCrtc drm_fd s.saved_crtc.crtc_id s.saved_crtc.buffer_id
                s.saved_crtc.x s.saved_crtc.y [(run env ops s).2.connector.connector_id]
                (some s.saved_crtc.mode)],
            using_saved_crtc := true }) := by
  have hu := run_set_crtc_succeeded env ops s fb h
  have hk := run_keeps env ops s
  have hfd := (RealKMSOutput_ok env drm_fd connector_id s0 s hc).1
  refine ⟨hk.2, ?_⟩
  simp [destructor, restore_saved_crtc, hu, hk.1, hk.2, hfd, Sys.call]

/-- Witness of C8: the inheriting output, one successful set_crtc, then a
destructor whose restoring call the kernel rejects with -13. -/
theorem destructor_restores_saved_crtc_witness :
    (destructor env_inherited_set_once
        (run env_inherited_set_once [Op.set_crtc fb_21]
          (RealKMSOutput env_inherited_set_once 3 5 sys_unbound).2).2).1 = Outcome.ok () ∧
      (destructor env_inherited_set_once
        (run env_inherited_set_once [Op.set_crtc fb_21]
          (RealKMSOutput env_inherited_set_once 3 5 sys_unbound).2).2).2.trace
        = [Event.DRMModeResources 3, Event.resources_connector 5, Event.DRMModeResources 3,
            Event.resources_encoder 4, Event.resources_crtc 7,
            Event.find_crtc_for_connector 3 connector_5_driven,
            Event.drmModeSetCrtc 3 7 21 0 0 [5] (some mode_1080p),
            Event.drmModeSetCrtc 3 7 9 0 0 [5] (some mode_1080p)] := by
  have h := destructor_restores_saved_crtc env_inherited_set_once 3 5 sys_unbound
    (RealKMSOutput env_inherited_set_once 3 5 sys_unbound).2 [Op.set_crtc fb_21] fb_21
    (by decide) (by decide)
  rw [h.2]
  decide

/-- C10: with the power state on and a controller claimed, wait_for_page_flip
waits on the page flipper for the claimed controller and stores the frame the
wait returned, which last_frame() then reports; no other call, and not the
destructor, changes last_frame(). -/
theorem wait_for_page_flip_records_frame (env : Env) (s : Sys) (crtc : drmModeCrtc)
    (hp : s.power_mode = MirPowerMode.mir_power_mode_on)
    (hc : s.current_crtc = some crtc) :
    wait_for_page_flip env s
        = (Outcome.ok (),
          { s with
            trace := s.trace ++ [Event.wait_for_flip crtc.crtc_id],
            last_frame_ := env.wait_for_flip (s.trace ++ [Event.wait_for_flip crtc.crtc_id]) }) ∧
      last_frame (wait_for_page_flip env s).2
        = env.wait_for_flip (s.trace ++ [Event.wait_for_flip crtc.crtc_id]) ∧
      (∀ op t, op ≠ Op.wait_for_page_flip → last_frame (exec env op t).2 = last_frame t) ∧
      (∀ t, last_frame (destructor env t).2 = last_frame t) := by
  refine ⟨?_, ?_, fun op t hop => (exec_keeps env op t).2.2 hop, ?_⟩
  · simp [wait_for_page_flip, hp, hc, Sys.call]
  · simp [wait_for_page_flip, hp, hc, Sys.call, last_frame]
  · intro t
    simp only [destructor, restore_saved_crtc, last_frame]
    split <;> rfl

/-- Witness of C10: the bound output; the flip completes as frame 1. -/
theorem wait_for_page_flip_records_frame_witness :
    last_frame (wait_for_page_flip env_ok sys_bound).2 = { msc := 1, ust := 16667 } ∧
      (wait_for_page_flip env_ok sys_bound).2.trace = [Event.wait_for_flip 7] :=
  have h := wait_for_page_flip_records_frame env_ok sys_bound crtc_7 rfl rfl
  ⟨h.2.1, by rw [h.1]; rfl⟩

/-! ### Power and gamma -/

/-- C5: set_power_mode returns normally and leaves the power state equal to
the requested mode; it appends the property write (device, connector id, DPMS
property id, mode) when the mode differs from the current power state and
appends nothing when it is equal, and changes nothing else.  A second
set_power_mode with the same mode changes nothing at all, so the two calls
together perform at most one write. -/
theorem set_power_mode_writes_when_changed (env : Env) (mode : MirPowerMode) (s : Sys) :
    (set_power_mode env mode s).1 = Outcome.ok () ∧
      (set_power_mode env mode s).2.power_mode = mode ∧
      (set_power_mode env mode s).2
        = { s with
            power_mode := mode,
            trace := if s.power_mode = mode then s.trace
              else s.trace ++ [Event.drmModeConnectorSetProperty s.drm_fd s.connector_id
                s.dpms_enum_id mode] } ∧
      set_power_mode env mode (set_power_mode env mode s).2
        = (Outcome.ok (), (set_power_mode env mode s).2) ∧
      (∃ writes, (set_power_mode env mode (set_power_mode env mode s).2).2.trace
          = s.trace ++ writes ∧ writes.length ≤ 1) := by
  by_cases h : s.power_mode = mode
  · subst h
    refine ⟨?_, ?_, ?_, ?_, [], ?_, ?_⟩ <;> simp [set_power_mode]
  · refine ⟨?_, ?_, ?_, ?_,
      [Event.drmModeConnectorSetProperty s.drm_fd s.connector_id s.dpms_enum_id mode],
      ?_, ?_⟩ <;> simp [set_power_mode, h, Sys.call]

/-- C4 as stated fails: with no controller claimed and the connector
disconnected, set_gamma with tables of lengths 2, 1 and 2 returns normally
after logging a warning; no invalid-argument error is raised. -/
theorem set_gamma_mismatch_unbound_returns :
    gamma_mismatched.red.length = 2 ∧ gamma_mismatched.green.length = 1 ∧
      set_gamma env_ok gamma_mismatched sys_disconnected
        = (Outcome.ok (),
          sys_disconnected.log_line Severity.warning
            "Output %s has no associated CRTC to set gamma on") := by
  decide

/-- C4, amended: for gamma tables that do not all have the same length,
set_gamma never issues the kernel gamma call: the only external call it can
make is the controller search of ensure_crtc.  It fails with the
invalid-argument error exactly when ensure_crtc reports a controller (one is
claimed already, in which case nothing at all changes, or the search claims
one), and returns normally when ensure_crtc reports none. -/
theorem set_gamma_mismatch (env : Env) (gamma : GammaCurves) (s : Sys)
    (h : gamma.red.length ≠ gamma.green.length ∨ gamma.green.length ≠ gamma.blue.length) :
    (set_gamma env gamma s).2.trace = (ensure_crtc env s).2.trace ∧
      ((set_gamma env gamma s).2.trace = s.trace ∨
        (set_gamma env gamma s).2.trace
          = s.trace ++ [Event.find_crtc_for_connector s.drm_fd s.connector]) ∧
      ((set_gamma env gamma s).1
          = Outcome.invalid_argument "set_gamma: mismatch gamma LUT sizes"
        ↔ (ensure_crtc env s).1 = Outcome.ok true) ∧
      ((ensure_crtc env s).1 = Outcome.ok false → (set_gamma env gamma s).1 = Outcome.ok ()) ∧
      (s.current_crtc.isSome = true → set_gamma env gamma s
        = (Outcome.invalid_argument "set_gamma: mismatch gamma LUT sizes", s)) := by
  have ht : (ensure_crtc env s).2.trace = s.trace ∨ (ensure_crtc env s).2.trace
      = s.trace ++ [Event.find_crtc_for_connector s.drm_fd s.connector] := by
    unfold ensure_crtc
    repeat (first | split | simp [Sys.call])
  have h0 : (set_gamma env gamma s).2.trace = (ensure_crtc env s).2.trace ∧
      ((set_gamma env gamma s).1
          = Outcome.invalid_argument "set_gamma: mismatch gamma LUT sizes"
        ↔ (ensure_crtc env s).1 = Outcome.ok true) ∧
      ((ensure_crtc env s).1 = Outcome.ok false →
        (set_gamma env gamma s).1 = Outcome.ok ()) := by
    have ho : (∃ b, (ensure_crtc env s).1 = Outcome.ok b) ∨
        (ensure_crtc env s).1 = Outcome.exception := by
      unfold ensure_crtc
      repeat (first | split | simp)
      rename_i c _
      cases c <;> simp
    unfold set_gamma
    generalize ensure_crtc env s = r at ho
    obtain ⟨o, s1⟩ := r
    rcases ho with ⟨b, hb⟩ | hb <;> simp only at hb <;> subst hb
    · cases b <;> simp [Outcome.andThen, Sys.log_line, h]
    · simp [Outcome.andThen]
  refine ⟨h0.1, by rw [h0.1]; exact ht, h0.2.1, h0.2.2, ?_⟩
  intro hb
  simp [set_gamma, ensure_crtc, hb, Outcome.andThen, h]

/-- Witness of C4 amended: the bound output and the tables of lengths 2, 1, 2. -/
theorem set_gamma_mismatch_witness :
    set_gamma env_ok gamma_mismatched sys_bound
      = (Outcome.invalid_argument "set_gamma: mismatch gamma LUT sizes", sys_bound) :=
  (set_gamma_mismatch env_ok gamma_mismatched sys_bound (by decide)).2.2.2.2 rfl

/-! ### Framebuffer handles -/

/-- Looking up a key is not affected by dropping the entries of another key. -/
theorem lookup_filter_ne (k k0 : Nat) (l : List (Nat × Nat)) (h : k ≠ k0) :
    (l.filter fun e => e.1 ≠ k0).lookup k = l.lookup k := by
  induction l with
  | nil => rfl
  | cons e l ih =>
    obtain ⟨a, b⟩ := e
    simp only [ne_eq, decide_not] at ih
    by_cases ha : a = k0
    · subst ha
      have hk : (k == a) = false := by simpa using h
      simp [List.filter, List.lookup, hk, ih]
    · by_cases hka : k = a
      · subst hka
        simp [List.filter, List.lookup, ha]
      · have hk : (k == a) = false := by simpa using hka
        simp [List.filter, List.lookup, ha, hk, ih]

/-- An address with an object on the heap is found by the lookup. -/
theorem lookup_of_mem (p : Nat) (fb : FBHandle) (l : List (Nat × FBHandle))
    (h : (p, fb) ∈ l) : l.lookup p ≠ none := by
  induction l with
  | nil => simp at h
  | cons e l ih =>
    obtain ⟨a, b⟩ := e
    by_cases hpa : p = a
    · subst hpa
      simp [List.lookup]
    · have hk : (p == a) = false := by simpa using hpa
      simp only [List.mem_cons, Prod.mk.injEq] at h
      rcases h with h | h
      · exact absurd h.1 hpa
      · simpa [List.lookup, hk] using ih h

/-- The function fb_for keeps every live handle attached to its buffer object. -/
theorem fb_for_handles_attached (env : Env) (bo : Option gbm_bo) (width height : Nat)
    (s : Sys) (h : handles_attached s) :
    handles_attached (fb_for env bo width height s).2 := by
  unfold fb_for
  split
  · exact h
  · rename_i b
    split
    · exact h
    · rename_i hnone
      simp only []
      split
      · exact h
      · intro p fb hmem
        simp only [gbm_bo_set_user_data, Sys.call, List.mem_cons, Prod.mk.injEq] at hmem
        simp only [gbm_bo_get_user_data, gbm_bo_set_user_data, Sys.call]
        rcases hmem with ⟨hp, hfb⟩ | hmem
        · subst hp hfb
          simp [List.lookup]
        · have hold := h p fb hmem
          simp only [gbm_bo_get_user_data] at hold hnone
          have hne : fb.bo.id ≠ b.id := by
            intro heq
            rw [heq, hnone] at hold
            exact absurd hold (by simp)
          have hk : (fb.bo.id == b.id) = false := by simpa using hne
          simp only [List.lookup, hk]
          rw [lookup_filter_ne _ _ _ hne]
          exact hold

/-- The destruction of a buffer object keeps every remaining live handle
attached to its buffer object. -/
theorem gbm_bo_destroy_handles_attached (bo : gbm_bo) (s : Sys) (h : handles_attached s) :
    handles_attached (gbm_bo_destroy bo s) := by
  unfold gbm_bo_destroy
  split
  · rename_i data hdata
    intro q fb hmem
    simp only [gbm_bo_get_user_data] at hdata ⊢
    have hsub : (q, fb) ∈ s.heap ∧ (fb.bo.id = bo.id → False) := by
      unfold bo_user_data_destroy at hmem
      split at hmem
      · simp only [FBHandle_destructor] at hmem
        have hm : (q, fb) ∈ s.heap ∧ q ≠ data := by
          split at hmem <;> simpa [Sys.call, List.mem_filter] using hmem
        refine ⟨hm.1, fun heq => ?_⟩
        have hold := h q fb hm.1
        simp only [gbm_bo_get_user_data] at hold
        rw [heq, hdata] at hold
        exact hm.2 (Option.some.inj hold).symm
      · rename_i hnone
        refine ⟨hmem, fun heq => ?_⟩
        have hold := h q fb hmem
        simp only [gbm_bo_get_user_data] at hold
        rw [heq, hdata] at hold
        have hq : q = data := (Option.some.inj hold).symm
        subst hq
        exact lookup_of_mem q fb s.heap hmem hnone
    have hud : (bo_user_data_destroy data s).user_data = s.user_data := by
      unfold bo_user_data_destroy FBHandle_destructor
      repeat (first | split | simp [Sys.call])
    simp only [hud]
    rw [lookup_filter_ne _ _ _ hsub.2]
    exact h q fb hsub.1
  · exact h

/-- No call detaches a live handle from its buffer object. -/
theorem exec_handles_attached (env : Env) (op : Op) (s : Sys) (h : handles_attached s) :
    handles_attached (exec env op s).2 := by
  have key : ∀ t : Sys, t.user_data = s.user_data ∧ t.heap = s.heap → handles_attached t := by
    intro t ht p fb hmem
    rw [ht.2] at hmem
    have := h p fb hmem
    simpa [gbm_bo_get_user_data, ht.1] using this
  cases op
  case fb_for bo width height => exact fb_for_handles_attached env bo width height s h
  case gbm_bo_destroy bo => exact gbm_bo_destroy_handles_attached bo s h
  case reset => exact key _ (reset_keeps env s).2.2.2.2
  case set_crtc fb => exact key _ (set_crtc_keeps env fb s).2.2.2
  case clear_crtc => exact key _ (clear_crtc_keeps env s).2.2.2.2
  case ensure_crtc => exact key _ (ensure_crtc_keeps env s).2.2.2.2
  case set_gamma gamma => exact key _ (set_gamma_keeps env gamma s).2.2.2.2
  case wait_for_page_flip => exact key _ (wait_for_page_flip_keeps env s).2.2.2
  case schedule_page_flip fb =>
    exact key _ (simple_calls_keep env s fb bo_1 ⟨0, 0⟩ s.power_mode ⟨0, 0⟩ 0
      (schedule_page_flip env fb s).2 (Or.inr (Or.inl rfl))).2.2.2.2
  case set_cursor buffer =>
    exact key _ (simple_calls_keep env s fb_21 buffer ⟨0, 0⟩ s.power_mode ⟨0, 0⟩ 0
      (set_cursor env buffer s).2 (Or.inr (Or.inr (Or.inl rfl)))).2.2.2.2
  case move_cursor destination =>
    exact key _ (simple_calls_keep env s fb_21 bo_1 destination s.power_mode ⟨0, 0⟩ 0
      (move_cursor env destination s).2 (Or.inr (Or.inr (Or.inr (Or.inl rfl))))).2.2.2.2
  case clear_cursor =>
    exact key _ (simple_calls_keep env s fb_21 bo_1 ⟨0, 0⟩ s.power_mode ⟨0, 0⟩ 0
      (clear_cursor env s).2 (Or.inr (Or.inr (Or.inr (Or.inr (Or.inl rfl)))))).2.2.2.2
  case set_power_mode mode =>
    exact key _ (simple_calls_keep env s fb_21 bo_1 ⟨0, 0⟩ mode ⟨0, 0⟩ 0
      (set_power_mode env mode s).2 (Or.inr (Or.inr (Or.inr (Or.inr (Or.inr rfl)))))).2.2.2.2
  all_goals exact key _ ⟨rfl, rfl⟩

/-- No sequence of calls detaches a live handle from its buffer object. -/
theorem run_handles_attached (env : Env) (ops : List Op) (s : Sys)
    (h : handles_attached s) : handles_attached (run env ops s).2 := by
  induction ops generalizing s with
  | nil => exact h
  | cons op ops ih => exact ih _ (exec_handles_attached env op s h)

/-- C3 as stated fails: when the kernel rejects the registration, two
consecutive calls of fb_for on the same buffer object both return the null
pointer and issue two framebuffer registrations. -/
theorem fb_for_twice_rejected_registers_twice :
    (fb_for env_failing (some bo_1) 1920 1080 sys_unbound).1 = Outcome.ok none ∧
      (fb_for env_failing (some bo_1) 1920 1080
          (fb_for env_failing (some bo_1) 1920 1080 sys_unbound).2).1 = Outcome.ok none ∧
      (fb_for env_failing (some bo_1) 1920 1080
          (fb_for env_failing (some bo_1) 1920 1080 sys_unbound).2).2.trace
        = [Event.drmModeAddFB2 3 1920 1080 GBM_FORMAT_XRGB8888 [11, 0, 0, 0] [7680, 0, 0, 0]
              [0, 0, 0, 0] 0,
            Event.drmModeAddFB2 3 1920 1080 GBM_FORMAT_XRGB8888 [11, 0, 0, 0] [7680, 0, 0, 0]
              [0, 0, 0, 0] 0] := by
  decide

/-- C3, amended: for every buffer object and dimensions, whenever the first
fb_for returns a handle (one was attached already, or the kernel accepted the
registration), the second fb_for returns the identical handle and changes
nothing, the handle is the one attached to the buffer object, and the two
calls together issue exactly one framebuffer registration when the buffer
object carried no handle and none when it carried one.  When no handle is
attached and the kernel accepts the registration the first call does return
a handle.  Through every sequence of calls each live handle stays the one
attached to its buffer object, so two live handles of one buffer object are
the same handle. -/
theorem fb_for_twice (env : Env) (bo : gbm_bo) (width height : Nat) (s : Sys) :
    (∀ p, (fb_for env (some bo) width height s).1 = Outcome.ok (some p) →
      fb_for env (some bo) width height (fb_for env (some bo) width height s).2
          = (Outcome.ok (some p), (fb_for env (some bo) width height s).2) ∧
        gbm_bo_get_user_data (fb_for env (some bo) width height s).2 bo = some p ∧
        (fb_for env (some bo) width height s).2.trace
          = if gbm_bo_get_user_data s bo = none then
              s.trace ++ [Event.drmModeAddFB2 s.drm_fd width height (fb_for_format bo.format)
                [bo.handle, 0, 0, 0] [bo.stride, 0, 0, 0] [0, 0, 0, 0] 0]
            else s.trace) ∧
      (gbm_bo_get_user_data s bo = none →
        (env.drmModeAddFB2 (s.trace ++ [Event.drmModeAddFB2 s.drm_fd width height
          (fb_for_format bo.format) [bo.handle, 0, 0, 0] [bo.stride, 0, 0, 0]
          [0, 0, 0, 0] 0])).1 = 0 →
        ∃ p, (fb_for env (some bo) width height s).1 = Outcome.ok (some p)) ∧
      (handles_attached s → ∀ ops p1 fb1 p2 fb2,
        (p1, fb1) ∈ (run env ops s).2.heap → (p2, fb2) ∈ (run env ops s).2.heap →
        fb1.bo.id = fb2.bo.id → p1 = p2) := by
  refine ⟨?_, ?_, ?_⟩
  · intro p hp
    have hattached : gbm_bo_get_user_data (fb_for env (some bo) width height s).2 bo
        = some p ∧ (fb_for env (some bo) width height s).2.trace
          = if gbm_bo_get_user_data s bo = none then
              s.trace ++ [Event.drmModeAddFB2 s.drm_fd width height (fb_for_format bo.format)
                [bo.handle, 0, 0, 0] [bo.stride, 0, 0, 0] [0, 0, 0, 0] 0]
            else s.trace := by
      unfold fb_for at hp ⊢
      simp only [] at hp ⊢
      split
      · rename_i q hq
        rw [hq] at hp
        simp only [Outcome.ok.injEq, Option.some.injEq] at hp
        subst hp
        simp [hq]
      · rename_i hq
        rw [hq] at hp
        simp only [] at hp
        split
        · rename_i hret
          rw [if_pos hret] at hp
          simp at hp
        · rename_i hret
          rw [if_neg hret] at hp
          simp only [Outcome.ok.injEq, Option.some.injEq] at hp
          subst hp
          simp [hq, gbm_bo_get_user_data, gbm_bo_set_user_data, Sys.call, List.lookup]
    refine ⟨?_, hattached.1, hattached.2⟩
    generalize fb_for env (some bo) width height s = r at hattached
    unfold fb_for
    simp only [hattached.1]
  · intro hnone hret
    unfold fb_for
    simp only [hnone, Sys.call, hret]
    exact ⟨_, rfl⟩
  · intro h ops p1 fb1 p2 fb2 h1 h2 hid
    have hinv := run_handles_attached env ops s h
    have e1 := hinv p1 fb1 h1
    have e2 := hinv p2 fb2 h2
    simp only [gbm_bo_get_user_data] at e1 e2
    rw [hid, e2] at e1
    exact (Option.some.inj e1).symm

/-- Witness of C3 amended: a fresh buffer object in a world that accepts the
registration; both calls return the handle at address 1 and one registration
is issued. -/
theorem fb_for_twice_witness :
    (fb_for env_ok (some bo_1) 1920 1080 sys_unbound).1 = Outcome.ok (some 1) ∧
      (fb_for env_ok (some bo_1) 1920 1080
        (fb_for env_ok (some bo_1) 1920 1080 sys_unbound).2).1 = Outcome.ok (some 1) ∧
      (fb_for env_ok (some bo_1) 1920 1080
        (fb_for env_ok (some bo_1) 1920 1080 sys_unbound).2).2.trace
        = [Event.drmModeAddFB2 3 1920 1080 GBM_FORMAT_XRGB8888 [11, 0, 0, 0] [7680, 0, 0, 0]
            [0, 0, 0, 0] 0] ∧
      handles_attached sys_unbound := by
  have h := (fb_for_twice env_ok bo_1 1920 1080 sys_unbound).1 1 (by decide)
  refine ⟨by decide, by rw [h.1], ?_, ?_⟩
  · rw [h.1, h.2.2]
    decide
  · intro p fb hmem
    simp [sys_unbound] at hmem

/-! ### Controller allocation -/

/-- The four ways ensure_crtc can go: a controller is claimed already; none
is claimed and the connector is not connected; the controller search throws;
the controller search returns a controller or null. -/
theorem ensure_crtc_cases (env : Env) (s : Sys) :
    (∃ crtc, s.current_crtc = some crtc ∧ ensure_crtc env s = (Outcome.ok true, s)) ∨
      (s.current_crtc = none ∧
        s.connector.connection ≠ drmModeConnection.DRM_MODE_CONNECTED ∧
        ensure_crtc env s = (Outcome.ok false, s)) ∨
      (s.current_crtc = none ∧
        s.connector.connection = drmModeConnection.DRM_MODE_CONNECTED ∧
        env.find_crtc_for_connector
          (s.trace ++ [Event.find_crtc_for_connector s.drm_fd s.connector]) = none ∧
        ensure_crtc env s
          = (Outcome.exception,
              s.call (Event.find_crtc_for_connector s.drm_fd s.connector))) ∨
      (s.current_crtc = none ∧
        s.connector.connection = drmModeConnection.DRM_MODE_CONNECTED ∧
        ∃ c, env.find_crtc_for_connector
            (s.trace ++ [Event.find_crtc_for_connector s.drm_fd s.connector]) = some c ∧
          ensure_crtc env s
            = (Outcome.ok c.isSome,
                { s.call (Event.find_crtc_for_connector s.drm_fd s.connector) with
                  current_crtc := c })) := by
  unfold ensure_crtc
  cases hc : s.current_crtc with
  | some crtc => simp
  | none =>
    by_cases hconn : s.connector.connection = drmModeConnection.DRM_MODE_CONNECTED
    · simp only [Sys.call]
      cases hf : env.find_crtc_for_connector
          (s.trace ++ [Event.find_crtc_for_connector s.drm_fd s.connector]) with
      | none => simp [hconn]
      | some c => simp [hconn]
    · simp [hconn]

/-- C12: ensure_crtc has no effect in its two short cuts.  With a controller
claimed it returns true and the whole state, call trace included, is as
before; with none claimed and the connector not connected it returns false
and the whole state is as before, so the output is still unbound. -/
theorem ensure_crtc_short_cuts (env : Env) (s : Sys) :
    (s.current_crtc.isSome = true → ensure_crtc env s = (Outcome.ok true, s)) ∧
      (s.current_crtc = none →
        s.connector.connection ≠ drmModeConnection.DRM_MODE_CONNECTED →
        ensure_crtc env s = (Outcome.ok false, s) ∧
          (ensure_crtc env s).2.current_crtc = none) := by
  constructor
  · intro h
    simp [ensure_crtc, h]
  · intro h hconn
    simp [ensure_crtc, h, hconn]

/-- Witness of C12: the bound output and the disconnected unbound output. -/
theorem ensure_crtc_short_cuts_witness :
    ensure_crtc env_ok sys_bound = (Outcome.ok true, sys_bound) ∧
      ensure_crtc env_ok sys_disconnected = (Outcome.ok false, sys_disconnected) :=
  ⟨(ensure_crtc_short_cuts env_ok sys_bound).1 rfl,
    ((ensure_crtc_short_cuts env_ok sys_disconnected).2 rfl (by decide)).1⟩

/-- C13: whenever ensure_crtc returns, its result is true exactly when a
controller is claimed at that moment.  With no controller claimed and the
connector not connected it returns false without raising.  With no
controller claimed, the connector connected and the controller search
answering (a controller or null), it returns without raising, the result is
true exactly when the search found a controller, and what the search
answered is then the binding. -/
theorem ensure_crtc_result (env : Env) (s : Sys) :
    (∀ b, (ensure_crtc env s).1 = Outcome.ok b →
        (b = true ↔ (ensure_crtc env s).2.current_crtc.isSome = true)) ∧
      (s.current_crtc = none →
        s.connector.connection ≠ drmModeConnection.DRM_MODE_CONNECTED →
        (ensure_crtc env s).1 = Outcome.ok false) ∧
      (s.current_crtc = none →
        s.connector.connection = drmModeConnection.DRM_MODE_CONNECTED →
        ∀ c, env.find_crtc_for_connector
            (s.trace ++ [Event.find_crtc_for_connector s.drm_fd s.connector]) = some c →
          (ensure_crtc env s).1 = Outcome.ok c.isSome ∧
            (ensure_crtc env s).2.current_crtc = c) := by
  refine ⟨?_, ?_, ?_⟩
  · intro b hb
    rcases ensure_crtc_cases env s with ⟨crtc, hc, he⟩ | ⟨hc, _, he⟩ | ⟨_, _, _, he⟩ |
      ⟨_, _, c, _, he⟩ <;> rw [he] at hb ⊢ <;> simp at hb ⊢
    · simp [← hb, hc]
    · simp [← hb, hc]
    · simp [← hb]
  · intro hc hconn
    simp [ensure_crtc, hc, hconn]
  · intro hc hconn c hf
    simp [ensure_crtc, hc, hconn, Sys.call, hf]

/-- Witness of C13: on the unbound connected output a search that finds
controller 7 gives true and binds it; a search that finds none gives false
and leaves the output unbound. -/
theorem ensure_crtc_result_witness :
    (ensure_crtc env_ok sys_unbound).1 = Outcome.ok true ∧
      (ensure_crtc env_ok sys_unbound).2.current_crtc = some crtc_7 ∧
      (ensure_crtc env_failing sys_unbound).1 = Outcome.ok false ∧
      (ensure_crtc env_failing sys_unbound).2.current_crtc = none :=
  have h1 := (ensure_crtc_result env_ok sys_unbound).2.2 rfl rfl (some crtc_7) rfl
  have h2 := (ensure_crtc_result env_failing sys_unbound).2.2 rfl rfl none rfl
  ⟨h1.1, h1.2, h2.1, h2.2⟩

/-! ### Waiting without a controller, cursor calls without a controller -/

/-- C11: wait_for_page_flip ends in the fatal error exactly when the power
state is on and no controller is claimed, and it fails in no other way; in
that case nothing changes: the page flipper is not called and last_frame()
is what it was. -/
theorem wait_for_page_flip_fatal_iff (env : Env) (s : Sys) :
    ((wait_for_page_flip env s).1
          = Outcome.fatal_error "Output %s has no associated CRTC to wait on"
        ↔ (s.power_mode = MirPowerMode.mir_power_mode_on ∧ s.current_crtc = none)) ∧
      ((wait_for_page_flip env s).1 ≠ Outcome.ok ()
        ↔ (s.power_mode = MirPowerMode.mir_power_mode_on ∧ s.current_crtc = none)) ∧
      (s.power_mode = MirPowerMode.mir_power_mode_on → s.current_crtc = none →
        (wait_for_page_flip env s).2 = s ∧
          last_frame (wait_for_page_flip env s).2 = last_frame s) := by
  unfold wait_for_page_flip
  by_cases hp : s.power_mode = MirPowerMode.mir_power_mode_on
  · cases hc : s.current_crtc <;> simp [hp]
  · simp [hp]

/-- Witness of C11: the unbound powered-on output fails, the bound one does
not. -/
theorem wait_for_page_flip_fatal_iff_witness :
    (wait_for_page_flip env_ok sys_unbound).1
        = Outcome.fatal_error "Output %s has no associated CRTC to wait on" ∧
      (wait_for_page_flip env_ok sys_unbound).2 = sys_unbound ∧
      (wait_for_page_flip env_ok sys_bound).1 = Outcome.ok () :=
  ⟨(wait_for_page_flip_fatal_iff env_ok sys_unbound).1.2 ⟨rfl, rfl⟩,
    ((wait_for_page_flip_fatal_iff env_ok sys_unbound).2.2 rfl rfl).1,
    by
      have h := (wait_for_page_flip_fatal_iff env_ok sys_bound).2.1
      by_contra hne
      exact absurd (h.1 hne).2 (by decide)⟩

/-- C20: with no controller claimed, set_cursor, move_cursor and clear_cursor
return normally and leave the whole state as it was: no kernel cursor call
is issued and no member of the output changes, neither the binding nor the
has_cursor flag nor the power state. -/
theorem cursor_calls_unbound (env : Env) (buffer : gbm_bo) (destination : Point) (s : Sys)
    (h : s.current_crtc = none) :
    (set_cursor env buffer s).2 = s ∧
      (move_cursor env destination s).2 = s ∧
      (clear_cursor env s).2 = s ∧
      (∃ b, (set_cursor env buffer s).1 = Outcome.ok b) ∧
      (move_cursor env destination s).1 = Outcome.ok () ∧
      (∃ b, (clear_cursor env s).1 = Outcome.ok b) ∧
      has_cursor (set_cursor env buffer s).2 = has_cursor s ∧
      has_cursor (clear_cursor env s).2 = has_cursor s := by
  simp [set_cursor, move_cursor, clear_cursor, h]

/-- Witness of C20: the unbound output. -/
theorem cursor_calls_unbound_witness :
    (set_cursor env_ok bo_1 sys_unbound).2 = sys_unbound ∧
      (move_cursor env_ok { x := 10, y := 20 } sys_unbound).2 = sys_unbound ∧
      (clear_cursor env_ok sys_unbound).2 = sys_unbound :=
  have h := cursor_calls_unbound env_ok bo_1 { x := 10, y := 20 } sys_unbound rfl
  ⟨h.1, h.2.1, h.2.2.1⟩

/-- C14: set_crtc returns true exactly when ensure_crtc reports a controller
(one claimed already or one claimed by the search) and the kernel mode-set
call issued for it returns 0; it returns false exactly when ensure_crtc
reports none or that call returns non-zero.  After a false result no
controller is claimed and using_saved_crtc is what it was; after a true
result a controller is claimed and using_saved_crtc is false. -/
theorem set_crtc_result (env : Env) (fb : FBHandle) (s : Sys) :
    ((set_crtc env fb s).1 = Outcome.ok true ↔
        ∃ s1 crtc mode, ensure_crtc env s = (Outcome.ok true, s1) ∧
          s1.current_crtc = some crtc ∧
          s1.connector.modes.get? s1.mode_index = some mode ∧
          env.drmModeSetCrtc (s1.trace ++ [Event.drmModeSetCrtc s1.drm_fd crtc.crtc_id
            fb.drm_fb_id (as_uint32_t s1.fb_offset.dx) (as_uint32_t s1.fb_offset.dy)
            [s1.connector.connector_id] (some mode)]) = 0) ∧
      ((set_crtc env fb s).1 = Outcome.ok false ↔
        ((ensure_crtc env s).1 = Outcome.ok false ∨
          ∃ s1 crtc mode, ensure_crtc env s = (Outcome.ok true, s1) ∧
            s1.current_crtc = some crtc ∧
            s1.connector.modes.get? s1.mode_index = some mode ∧
            env.drmModeSetCrtc (s1.trace ++ [Event.drmModeSetCrtc s1.drm_fd crtc.crtc_id
              fb.drm_fb_id (as_uint32_t s1.fb_offset.dx) (as_uint32_t s1.fb_offset.dy)
              [s1.connector.connector_id] (some mode)]) ≠ 0)) ∧
      ((set_crtc env fb s).1 = Outcome.ok false →
        (set_crtc env fb s).2.current_crtc = none ∧
          (set_crtc env fb s).2.using_saved_crtc = s.using_saved_crtc) ∧
      ((set_crtc env fb s).1 = Outcome.ok true →
        (set_crtc env fb s).2.current_crtc.isSome = true ∧
          (set_crtc env fb s).2.using_saved_crtc = false) := by
  rcases ensure_crtc_cases env s with ⟨crtc, hc, he⟩ | ⟨hc, hconn, he⟩ | ⟨hc, hconn, hf, he⟩ |
    ⟨hc, hconn, c, hf, he⟩
  · unfold set_crtc
    rw [he]
    simp only [Outcome.andThen, hc, FBHandle.get_drm_fb_id, Sys.call,
      List.get?_eq_getElem?]
    cases hm : s.connector.modes[s.mode_index]? with
    | none => simp [hm]
    | some mode =>
      by_cases hret : env.drmModeSetCrtc (s.trace ++ [Event.drmModeSetCrtc s.drm_fd
          crtc.crtc_id fb.drm_fb_id (as_uint32_t s.fb_offset.dx) (as_uint32_t s.fb_offset.dy)
          [s.connector.connector_id] (some mode)]) = 0
      · simp [hret, hc, hm]
      · simp [hret, hc, hm]
  · unfold set_crtc
    rw [he]
    simp [Outcome.andThen, hc, Sys.log_line]
  · unfold set_crtc
    rw [he]
    simp [Outcome.andThen]
  · unfold set_crtc
    rw [he]
    cases c with
    | none => simp [Outcome.andThen, Sys.log_line, Sys.call]
    | some crtc =>
      simp only [Outcome.andThen, FBHandle.get_drm_fb_id, Sys.call, Option.isSome_some,
        List.get?_eq_getElem?]
      cases hm : s.connector.modes[s.mode_index]? with
      | none => simp [hm]
      | some mode =>
        by_cases hret : env.drmModeSetCrtc (s.trace ++
            [Event.find_crtc_for_connector s.drm_fd s.connector,
              Event.drmModeSetCrtc s.drm_fd
                crtc.crtc_id fb.drm_fb_id (as_uint32_t s.fb_offset.dx)
                (as_uint32_t s.fb_offset.dy)
                [s.connector.connector_id] (some mode)]) = 0
        · simp [hret, hm]
        · simp [hret, hm]

/-- Witness of C14: on the unbound connected output, a kernel that accepts the
mode-set call gives true, controller 7 claimed and the flag cleared; a world
without a controller gives false, no controller and the flag as it was. -/
theorem set_crtc_result_witness :
    ((set_crtc env_ok fb_21 sys_unbound).2.current_crtc.isSome = true ∧
        (set_crtc env_ok fb_21 sys_unbound).2.using_saved_crtc = false) ∧
      ((set_crtc env_failing fb_21 sys_unbound).2.current_crtc = none ∧
        (set_crtc env_failing fb_21 sys_unbound).2.using_saved_crtc = true) ∧
      ((set_crtc env_inherited fb_21 sys_unbound).1 = Outcome.ok false ∧
        (set_crtc env_inherited fb_21 sys_unbound).2.current_crtc = none) :=
  ⟨(set_crtc_result env_ok fb_21 sys_unbound).2.2.2 (by decide),
    (set_crtc_result env_failing fb_21 sys_unbound).2.2.1 (by decide),
    by decide, ((set_crtc_result env_inherited fb_21 sys_unbound).2.2.1 (by decide)).1⟩

/-! ### Reset and configure -/

/-- C16: when the resources can be enumerated, a reset whose connector query
succeeds returns normally, leaves no controller claimed whatever was claimed
before, stores the connector just queried, and leaves the mode index, the
scanout offset, the power state, the saved controller state and
using_saved_crtc unchanged (only the trace, the connector, dpms_enum_id and
the binding can differ); a reset whose connector query fails ends in the
fatal error. -/
theorem reset_effect (env : Env) (s : Sys)
    (hres : env.DRMModeResources (s.trace ++ [Event.DRMModeResources s.drm_fd]) = true) :
    (∀ c, env.resources_connector (s.trace ++ [Event.DRMModeResources s.drm_fd] ++
          [Event.resources_connector s.connector_id]) = some c →
        (reset env s).1 = Outcome.ok () ∧
          (reset env s).2.current_crtc = none ∧
          (reset env s).2.connector = c ∧
          (reset env s).2.mode_index = s.mode_index ∧
          (reset env s).2.fb_offset = s.fb_offset ∧
          (reset env s).2.power_mode = s.power_mode ∧
          (reset env s).2.saved_crtc = s.saved_crtc ∧
          (reset env s).2.using_saved_crtc = s.using_saved_crtc ∧
          ∃ t d, (reset env s).2
            = { s with trace := t, connector := c, dpms_enum_id := d, current_crtc := none }) ∧
      (env.resources_connector (s.trace ++ [Event.DRMModeResources s.drm_fd] ++
          [Event.resources_connector s.connector_id]) = none →
        (reset env s).1 = Outcome.fatal_error "e.what()") := by
  constructor
  · intro c hc
    obtain ⟨t, d, hr⟩ := reset_find_dpms_frame env c.props
      { (s.call (Event.DRMModeResources s.drm_fd)).call
          (Event.resources_connector s.connector_id) with connector := c }
    have hreset : reset env s = (Outcome.ok (),
        { s with trace := t, connector := c, dpms_enum_id := d, current_crtc := none }) := by
      simp only [reset, Sys.call, hres, hc, if_true] at hr ⊢
      rw [hr]
    rw [hreset]
    exact ⟨rfl, rfl, rfl, rfl, rfl, rfl, rfl, rfl, t, d, rfl⟩
  · intro hc
    simp only [reset, Sys.call, hres, hc, if_true]

/-- Witness of C16: resetting the bound output re-reads connector 5 and drops
controller 7. -/
theorem reset_effect_witness :
    sys_bound.current_crtc = some crtc_7 ∧
      (reset env_ok sys_bound).1 = Outcome.ok () ∧
      (reset env_ok sys_bound).2.current_crtc = none ∧
      (reset env_ok sys_bound).2.connector = connector_5 :=
  have h := (reset_effect env_ok sys_bound rfl).1 connector_5 rfl
  ⟨rfl, h.1, h.2.1, h.2.2.1⟩

/-- C17 as stated fails: on a mode whose vrefresh is 4294967295
max_refresh_rate() returns -1, not the vrefresh of the mode, and after
configure with the offset (-1, 0) the next set_crtc passes x = 4294967295 to
the kernel mode-set call, not -1. -/
theorem configure_wrapping_values :
    (sys_bound_vrefresh_max.connector.modes.get? 0).map (fun m => m.vrefresh)
        = some 4294967295 ∧
      max_refresh_rate (configure { dx := -1, dy := 0 } 0 sys_bound_vrefresh_max).2
        = Outcome.ok (-1) ∧
      (set_crtc env_ok fb_21
          (configure { dx := -1, dy := 0 } 0 sys_bound_vrefresh_max).2).2.trace
        = [Event.drmModeSetCrtc 3 7 21 4294967295 0 [5] (some mode_vrefresh_max)] := by
  decide

/-- C17, amended: configure returns normally and changes only the scanout
offset and the mode index, the call trace included (no kernel call); of two
configure calls the later one decides.  When the index is below the number
of modes, size() is hdisplay by vdisplay of that mode; max_refresh_rate() is
the vrefresh of that mode converted from uint32_t to int, which is the
vrefresh itself below 2147483648 and the vrefresh minus 4294967296 from
there on; and a following set_crtc for which ensure_crtc reports a
controller issues the kernel mode-set call with that mode and with the
offset components converted from int to uint32_t, which is the component
itself when it is not negative and the component plus 4294967296 when it
is. -/
theorem configure_selects (env : Env) (fb : FBHandle) (offset : Displacement) (i : Nat)
    (s : Sys) (hi : i < s.connector.modes.length) :
    configure offset i s = (Outcome.ok (), { s with fb_offset := offset, mode_index := i }) ∧
      (configure offset i s).2.trace = s.trace ∧
      (∀ o1 i1, configure offset i (configure o1 i1 s).2 = configure offset i s) ∧
      size (configure offset i s).2
        = Outcome.ok { width := (s.connector.modes.get ⟨i, hi⟩).hdisplay,
                       height := (s.connector.modes.get ⟨i, hi⟩).vdisplay } ∧
      max_refresh_rate (configure offset i s).2
        = Outcome.ok (uint32_as_int (s.connector.modes.get ⟨i, hi⟩).vrefresh) ∧
      (∀ s1 crtc, ensure_crtc env (configure offset i s).2 = (Outcome.ok true, s1) →
        s1.current_crtc = some crtc →
        (set_crtc env fb (configure offset i s).2).2.trace
          = s1.trace ++ [Event.drmModeSetCrtc s.drm_fd crtc.crtc_id fb.drm_fb_id
              (as_uint32_t offset.dx) (as_uint32_t offset.dy) [s.connector.connector_id]
              (some (s.connector.modes.get ⟨i, hi⟩))]) ∧
      (∀ v : Nat, v < 4294967296 →
        uint32_as_int v = if v < 2147483648 then (v : Int) else (v : Int) - 4294967296) ∧
      (∀ d : Int, -2147483648 ≤ d → d < 2147483648 →
        (as_uint32_t d : Int) = if 0 ≤ d then d else d + 4294967296) := by
  have hget : s.connector.modes[i]? = some (s.connector.modes.get ⟨i, hi⟩) := by
    simp [List.getElem?_eq_getElem hi]
  refine ⟨rfl, rfl, fun _ _ => rfl, ?_, ?_, ?_, ?_, ?_⟩
  · simp [size, configure, hget]
  · simp [max_refresh_rate, configure, hget]
  · intro s1 crtc he hc1
    have hk : s1.drm_fd = s.drm_fd ∧ s1.connector = s.connector ∧ s1.mode_index = i ∧
        s1.fb_offset = offset := by
      rcases ensure_crtc_cases env (configure offset i s).2 with ⟨_, _, h⟩ | ⟨_, _, h⟩ |
        ⟨_, _, _, h⟩ | ⟨_, _, c, _, h⟩ <;> rw [h] at he <;>
        simp only [Prod.mk.injEq] at he
      · rw [← he.2]
        simp [configure]
      · simp at he
      · simp at he
      · rw [← he.2]
        simp [configure, Sys.call]
    unfold set_crtc
    rw [he]
    simp only [Outcome.andThen, hc1, hk.1, hk.2.1, hk.2.2.1, hk.2.2.2, List.get?_eq_getElem?,
      hget, Sys.call, FBHandle.get_drm_fb_id, Bool.not_true, Bool.false_eq_true, if_false]
    split <;> rfl
  · intro v hv
    unfold uint32_as_int
    rw [Nat.mod_eq_of_lt hv]
  · intro d hlo hhi
    unfold as_uint32_t
    rw [Int.toNat_of_nonneg (Int.emod_nonneg _ (by decide))]
    split <;> omega

/-- Witness of C17 amended: configuring the bound output to offset (100, 0)
and its only mode, of 60 Hz. -/
theorem configure_selects_witness :
    size (configure { dx := 100, dy := 0 } 0 sys_bound).2
        = Outcome.ok { width := 1920, height := 1080 } ∧
      max_refresh_rate (configure { dx := 100, dy := 0 } 0 sys_bound).2 = Outcome.ok 60 ∧
      (set_crtc env_ok fb_21 (configure { dx := 100, dy := 0 } 0 sys_bound).2).2.trace
        = [Event.drmModeSetCrtc 3 7 21 100 0 [5] (some mode_1080p)] :=
  have h := configure_selects env_ok fb_21 { dx := 100, dy := 0 } 0 sys_bound (by decide)
  ⟨h.2.2.2.1, h.2.2.2.2.1.trans (by decide),
    h.2.2.2.2.2.1 (configure { dx := 100, dy := 0 } 0 sys_bound).2 crtc_7 (by decide) rfl⟩

/-! ### Registration failure, gamma upload, construction -/

/-- C18: for a buffer object that carries no handle, fb_for issues one
framebuffer registration.  If the kernel rejects it, fb_for returns the null
pointer without raising, the buffer object still carries no handle, nothing
is put on the heap, and the next fb_for on it issues the registration again.
If the kernel accepts it, fb_for returns the address of a handle that holds
the framebuffer id the registration produced, and that handle is the one
attached to the buffer object. -/
theorem fb_for_registration (env : Env) (bo : gbm_bo) (width height : Nat) (s : Sys)
    (hnone : gbm_bo_get_user_data s bo = none) :
    ((env.drmModeAddFB2 (s.trace ++ [Event.drmModeAddFB2 s.drm_fd width height
          (fb_for_format bo.format) [bo.handle, 0, 0, 0] [bo.stride, 0, 0, 0]
          [0, 0, 0, 0] 0])).1 ≠ 0 →
        fb_for env (some bo) width height s
          = (Outcome.ok none,
              s.call (Event.drmModeAddFB2 s.drm_fd width height (fb_for_format bo.format)
                [bo.handle, 0, 0, 0] [bo.stride, 0, 0, 0] [0, 0, 0, 0] 0)) ∧
          gbm_bo_get_user_data (fb_for env (some bo) width height s).2 bo = none ∧
          (fb_for env (some bo) width height s).2.heap = s.heap ∧
          (fb_for env (some bo) width height (fb_for env (some bo) width height s).2).2.trace
            = s.trace ++ [Event.drmModeAddFB2 s.drm_fd width height (fb_for_format bo.format)
                [bo.handle, 0, 0, 0] [bo.stride, 0, 0, 0] [0, 0, 0, 0] 0]
              ++ [Event.drmModeAddFB2 s.drm_fd width height (fb_for_format bo.format)
                [bo.handle, 0, 0, 0] [bo.stride, 0, 0, 0] [0, 0, 0, 0] 0]) ∧
      ((env.drmModeAddFB2 (s.trace ++ [Event.drmModeAddFB2 s.drm_fd width height
          (fb_for_format bo.format) [bo.handle, 0, 0, 0] [bo.stride, 0, 0, 0]
          [0, 0, 0, 0] 0])).1 = 0 →
        ∃ p, (fb_for env (some bo) width height s).1 = Outcome.ok (some p) ∧
          (fb_for env (some bo) width height s).2.heap.lookup p
            = some { bo := bo,
                     drm_fb_id := (env.drmModeAddFB2 (s.trace ++ [Event.drmModeAddFB2 s.drm_fd
                       width height (fb_for_format bo.format) [bo.handle, 0, 0, 0]
                       [bo.stride, 0, 0, 0] [0, 0, 0, 0] 0])).2 } ∧
          gbm_bo_get_user_data (fb_for env (some bo) width height s).2 bo = some p) := by
  constructor
  · intro hret
    have h1 : fb_for env (some bo) width height s
        = (Outcome.ok none,
            s.call (Event.drmModeAddFB2 s.drm_fd width height (fb_for_format bo.format)
              [bo.handle, 0, 0, 0] [bo.stride, 0, 0, 0] [0, 0, 0, 0] 0)) := by
      simp only [fb_for, hnone, Sys.call, hret, ne_eq, not_false_eq_true, if_true]
    have h2 : gbm_bo_get_user_data
        (s.call (Event.drmModeAddFB2 s.drm_fd width height (fb_for_format bo.format)
          [bo.handle, 0, 0, 0] [bo.stride, 0, 0, 0] [0, 0, 0, 0] 0)) bo = none := hnone
    refine ⟨h1, by rw [h1]; exact h2, by rw [h1]; rfl, ?_⟩
    rw [h1]
    unfold fb_for
    simp only [h2]
    simp only [Sys.call]
    split <;> rfl
  · intro hret
    have hnone2 : List.lookup bo.id s.user_data = none := hnone
    refine ⟨s.next_addr, ?_, ?_, ?_⟩ <;>
      simp [fb_for, hnone2, Sys.call, hret, gbm_bo_set_user_data, gbm_bo_get_user_data,
        List.lookup]

/-- Witness of C18: a fresh buffer object, once in a world that rejects the
registration and once in a world that accepts it with framebuffer id 21. -/
theorem fb_for_registration_witness :
    fb_for env_failing (some bo_1) 1920 1080 sys_unbound
        = (Outcome.ok none,
            sys_unbound.call (Event.drmModeAddFB2 3 1920 1080 GBM_FORMAT_XRGB8888
              [11, 0, 0, 0] [7680, 0, 0, 0] [0, 0, 0, 0] 0)) ∧
      (∃ p, (fb_for env_ok (some bo_1) 1920 1080 sys_unbound).1 = Outcome.ok (some p) ∧
        (fb_for env_ok (some bo_1) 1920 1080 sys_unbound).2.heap.lookup p = some fb_21 ∧
        gbm_bo_get_user_data (fb_for env_ok (some bo_1) 1920 1080 sys_unbound).2 bo_1
          = some p) :=
  ⟨((fb_for_registration env_failing bo_1 1920 1080 sys_unbound rfl).1 (by decide)).1,
    (fb_for_registration env_ok bo_1 1920 1080 sys_unbound rfl).2 (by decide)⟩

/-- The saved controller state after a successful construction: zero when the
connector has no encoder or the encoder drives no controller, and otherwise
the controller the resources report for the encoder of the connector. -/
theorem RealKMSOutput_saved_crtc (env : Env) (drm_fd : Int) (connector_id : Nat)
    (s0 s : Sys) (h : RealKMSOutput env drm_fd connector_id s0 = (Outcome.ok (), s)) :
    (s.connector.encoder_id = 0 → s.saved_crtc = drmModeCrtc.zero) ∧
      (s.saved_crtc = drmModeCrtc.zero ∨
        ∃ t encoder, s.connector.encoder_id ≠ 0 ∧ encoder.crtc_id ≠ 0 ∧
          env.resources_encoder (t ++ [Event.resources_encoder s.connector.encoder_id])
            = some encoder ∧
          s.trace = t ++ [Event.resources_encoder s.connector.encoder_id] ++
            [Event.resources_crtc encoder.crtc_id] ∧
          env.resources_crtc s.trace = some s.saved_crtc) := by
  unfold RealKMSOutput at h
  simp only [] at h
  generalize hs1 : ({ s0 with
    drm_fd := drm_fd, connector_id := connector_id, mode_index := 0,
    fb_offset := { dx := 0, dy := 0 },
    current_crtc := none, saved_crtc := drmModeCrtc.zero,
    using_saved_crtc := true, has_cursor_ := false,
    power_mode := MirPowerMode.mir_power_mode_on } : Sys) = s1 at h
  obtain ⟨t, c, d, cc, hr, hok⟩ := reset_frame env s1
  generalize reset env s1 = r at h hr hok
  obtain ⟨o, s2⟩ := r
  cases o <;> simp only [Outcome.andThen] at h
  case ok u =>
    clear hok
    simp only at hr
    subst hr hs1
    simp only [Sys.call] at h
    split at h
    · split at h
      · split at h
        · cases h
        · split at h
          · split at h
            · cases h
            · rename_i henc _ encoder hre hcrtc _ crtc hrc
              cases h
              exact ⟨fun h0 => absurd h0 henc,
                Or.inr ⟨_, encoder, henc, hcrtc, hre, rfl, hrc⟩⟩
          · rename_i henc _ encoder hre hcrtc
            cases h
            exact ⟨fun _ => rfl, Or.inl rfl⟩
      · cases h
        exact ⟨fun _ => rfl, Or.inl rfl⟩
    · cases h
  all_goals simp at h

/-- C15 as stated fails: an output constructed on connector 5 while encoder 4
drives it with controller 7 has no controller claimed after construction;
the inherited controller is only recorded as the saved state, a page flip
scheduled right away is refused for want of a controller and set_cursor
issues no call. -/
theorem RealKMSOutput_inheriting_is_unbound :
    (RealKMSOutput env_inherited 3 5 sys_unbound).1 = Outcome.ok () ∧
      (RealKMSOutput env_inherited 3 5 sys_unbound).2.connector.encoder_id = 4 ∧
      (RealKMSOutput env_inherited 3 5 sys_unbound).2.saved_crtc = crtc_7 ∧
      (RealKMSOutput env_inherited 3 5 sys_unbound).2.current_crtc = none ∧
      (schedule_page_flip env_inherited fb_21
        (RealKMSOutput env_inherited 3 5 sys_unbound).2).1 = Outcome.ok false ∧
      (set_cursor env_inherited bo_1 (RealKMSOutput env_inherited 3 5 sys_unbound).2).2
        = (RealKMSOutput env_inherited 3 5 sys_unbound).2 := by
  decide

/-- C15, amended: immediately after a successful construction no controller
is claimed, whether or not the connector's encoder already drives one, and
using_saved_crtc is true.  A controller the encoder already drives is only
recorded as the saved controller state (which is zero when there is no
encoder or the encoder drives none).  Until a controller is claimed a
scheduled flip is refused without a call to the page flipper, waiting for a
flip is a fatal error, and the cursor calls change nothing. -/
theorem RealKMSOutput_initial_state (env : Env) (drm_fd : Int) (connector_id : Nat)
    (s0 s : Sys) (fb : FBHandle) (buffer : gbm_bo) (destination : Point)
    (h : RealKMSOutput env drm_fd connector_id s0 = (Outcome.ok (), s)) :
    s.current_crtc = none ∧ s.using_saved_crtc = true ∧
      (s.connector.encoder_id = 0 → s.saved_crtc = drmModeCrtc.zero) ∧
      (s.saved_crtc = drmModeCrtc.zero ∨
        ∃ t encoder, s.connector.encoder_id ≠ 0 ∧ encoder.crtc_id ≠ 0 ∧
          env.resources_encoder (t ++ [Event.resources_encoder s.connector.encoder_id])
            = some encoder ∧
          s.trace = t ++ [Event.resources_encoder s.connector.encoder_id] ++
            [Event.resources_crtc encoder.crtc_id] ∧
          env.resources_crtc s.trace = some s.saved_crtc) ∧
      (schedule_page_flip env fb s).1 = Outcome.ok false ∧
      (schedule_page_flip env fb s).2.trace = s.trace ∧
      (wait_for_page_flip env s).1
        = Outcome.fatal_error "Output %s has no associated CRTC to wait on" ∧
      (set_cursor env buffer s).2 = s ∧
      (move_cursor env destination s).2 = s ∧
      (clear_cursor env s).2 = s := by
  have hok := RealKMSOutput_ok env drm_fd connector_id s0 s h
  have hsaved := RealKMSOutput_saved_crtc env drm_fd connector_id s0 s h
  have hc := hok.2.2.1
  have hp := hok.2.2.2.2.1
  refine ⟨hc, hok.2.2.2.1, hsaved.1, hsaved.2, ?_, ?_, ?_, ?_, ?_, ?_⟩
  · simp [schedule_page_flip, hc, hp]
  · simp [schedule_page_flip, hc, hp, Sys.log_line]
  · simp [wait_for_page_flip, hc, hp]
  · simp [set_cursor, hc]
  · simp [move_cursor, hc]
  · simp [clear_cursor, hc]

/-- Witness of C15 amended: the output constructed while controller 7 drives
connector 5. -/
theorem RealKMSOutput_initial_state_witness :
    (RealKMSOutput env_inherited 3 5 sys_unbound).2.current_crtc = none ∧
      (RealKMSOutput env_inherited 3 5 sys_unbound).2.using_saved_crtc = true ∧
      (schedule_page_flip env_inherited fb_21
        (RealKMSOutput env_inherited 3 5 sys_unbound).2).1 = Outcome.ok false :=
  have h := RealKMSOutput_initial_state env_inherited 3 5 sys_unbound
    (RealKMSOutput env_inherited 3 5 sys_unbound).2 fb_21 bo_1 { x := 0, y := 0 } (by decide)
  ⟨h.1, h.2.1, h.2.2.2.2.1⟩

/-! ### Cursor calls -/

/-- C21 as stated fails: on the output with no controller claimed set_cursor
returns true, not false, and changes nothing. -/
theorem set_cursor_unbound_example_returns_true :
    sys_unbound.current_crtc = none ∧
      set_cursor env_ok bo_1 sys_unbound = (Outcome.ok true, sys_unbound) ∧
      set_cursor env_failing bo_1 sys_unbound = (Outcome.ok true, sys_unbound) := by
  decide

/-- C21, amended: in every state with no controller claimed set_cursor
returns true (its result variable stays 0, no kernel call having failed),
issues no call and changes nothing; that no cursor was set shows only in
has_cursor(), which keeps the value it had, and clear_cursor returns true in
the same way. -/
theorem set_cursor_unbound_returns_true (env : Env) (buffer : gbm_bo) (s : Sys)
    (h : s.current_crtc = none) :
    set_cursor env buffer s = (Outcome.ok true, s) ∧
      has_cursor (set_cursor env buffer s).2 = has_cursor s ∧
      clear_cursor env s = (Outcome.ok true, s) := by
  simp [set_cursor, clear_cursor, h]

/-- Witness of C21 amended: the unbound output, which has no cursor before
and after. -/
theorem set_cursor_unbound_returns_true_witness :
    (set_cursor env_ok bo_1 sys_unbound).1 = Outcome.ok true ∧
      has_cursor (set_cursor env_ok bo_1 sys_unbound).2 = false :=
  have h := set_cursor_unbound_returns_true env_ok bo_1 sys_unbound rfl
  ⟨by rw [h.1], h.2.1.trans rfl⟩

/-- C22: with a controller claimed, every cursor call returns normally and
keeps the binding, whatever the kernel answers.  set_cursor issues the kernel
call, returns whether it answered 0, and has_cursor() afterwards is that same
value (false after a failure, true after a success).  move_cursor leaves
has_cursor() as it was.  clear_cursor leaves has_cursor() false after a
success and after a failure alike. -/
theorem cursor_calls_bound (env : Env) (buffer : gbm_bo) (destination : Point) (s : Sys)
    (crtc : drmModeCrtc) (hc : s.current_crtc = some crtc) :
    ((set_cursor env buffer s).1
        = Outcome.ok (decide (env.drmModeSetCursor (s.trace ++
            [Event.drmModeSetCursor s.drm_fd crtc.crtc_id buffer.handle buffer.width
              buffer.height]) = 0)) ∧
      has_cursor (set_cursor env buffer s).2
        = decide (env.drmModeSetCursor (s.trace ++
            [Event.drmModeSetCursor s.drm_fd crtc.crtc_id buffer.handle buffer.width
              buffer.height]) = 0) ∧
      (set_cursor env buffer s).2.current_crtc = some crtc) ∧
    ((move_cursor env destination s).1 = Outcome.ok () ∧
      has_cursor (move_cursor env destination s).2 = has_cursor s ∧
      (move_cursor env destination s).2.current_crtc = some crtc) ∧
    ((∃ b, (clear_cursor env s).1 = Outcome.ok b) ∧
      has_cursor (clear_cursor env s).2 = false ∧
      (clear_cursor env s).2.current_crtc = some crtc) := by
  refine ⟨?_, ?_, ?_⟩
  · simp only [set_cursor, hc, Sys.call, Sys.log_line, has_cursor]
    split <;> simp_all
  · simp only [move_cursor, hc, Sys.call, Sys.log_line, has_cursor]
    split <;> simp_all
  · simp only [clear_cursor, hc, Sys.call, Sys.log_line, has_cursor]
    split <;> simp_all

/-- Witness of C22: the bound output with a kernel that rejects every cursor
call and with one that accepts them. -/
theorem cursor_calls_bound_witness :
    (set_cursor env_failing bo_1 sys_bound).1 = Outcome.ok false ∧
      has_cursor (set_cursor env_failing bo_1 sys_bound).2 = false ∧
      (set_cursor env_ok bo_1 sys_bound).1 = Outcome.ok true ∧
      has_cursor (set_cursor env_ok bo_1 sys_bound).2 = true ∧
      has_cursor (clear_cursor env_failing (set_cursor env_ok bo_1 sys_bound).2).2 = false :=
  have h1 := cursor_calls_bound env_failing bo_1 { x := 1, y := 2 } sys_bound crtc_7 rfl
  have h2 := cursor_calls_bound env_ok bo_1 { x := 1, y := 2 } sys_bound crtc_7 rfl
  have h3 := cursor_calls_bound env_failing bo_1 { x := 1, y := 2 }
    (set_cursor env_ok bo_1 sys_bound).2 crtc_7 h2.1.2.2
  ⟨h1.1.1.trans (by decide), h1.1.2.1.trans (by decide), h2.1.1.trans (by decide),
    h2.1.2.1.trans (by decide), h3.2.2.2.1⟩

/-! ### Blanking the output -/

/-- C23: when ensure_crtc reports a controller (claimed already or claimed
by the search), clear_crtc issues exactly one further call, the kernel
mode-set call on that controller with framebuffer id 0, position 0, no
connectors and no mode.  If the kernel answers 0, clear_crtc returns and no
controller is claimed afterwards; if it answers anything else, clear_crtc
ends in the fatal error. -/
theorem clear_crtc_with_controller (env : Env) (s s1 : Sys) (crtc : drmModeCrtc)
    (he : ensure_crtc env s = (Outcome.ok true, s1)) (hc : s1.current_crtc = some crtc) :
    (clear_crtc env s).2.trace
        = s1.trace ++ [Event.drmModeSetCrtc s.drm_fd crtc.crtc_id 0 0 0 [] none] ∧
      (env.drmModeSetCrtc
          (s1.trace ++ [Event.drmModeSetCrtc s.drm_fd crtc.crtc_id 0 0 0 [] none]) = 0 →
        (clear_crtc env s).1 = Outcome.ok () ∧ (clear_crtc env s).2.current_crtc = none) ∧
      (env.drmModeSetCrtc
          (s1.trace ++ [Event.drmModeSetCrtc s.drm_fd crtc.crtc_id 0 0 0 [] none]) ≠ 0 →
        (clear_crtc env s).1
          = Outcome.fatal_error "Couldn't clear output %s (drmModeSetCrtc = %d)") := by
  have hfd : s1.drm_fd = s.drm_fd := by
    have hk := (ensure_crtc_keeps env s).1
    rw [he] at hk
    exact hk
  unfold clear_crtc
  rw [he]
  simp only [hc, Sys.call, hfd]
  refine ⟨?_, ?_, ?_⟩
  · split <;> rfl
  · intro h0
    simp [h0]
  · intro h0
    simp [h0]

/-- Witness of C23: blanking the bound output, with a kernel that accepts the
call and with one that rejects it. -/
theorem clear_crtc_with_controller_witness :
    (clear_crtc env_ok sys_bound).2.trace = [Event.drmModeSetCrtc 3 7 0 0 0 [] none] ∧
      (clear_crtc env_ok sys_bound).1 = Outcome.ok () ∧
      (clear_crtc env_ok sys_bound).2.current_crtc = none ∧
      (clear_crtc env_failing sys_bound).1
        = Outcome.fatal_error "Couldn't clear output %s (drmModeSetCrtc = %d)" :=
  have h1 := clear_crtc_with_controller env_ok sys_bound sys_bound crtc_7 rfl rfl
  have h2 := clear_crtc_with_controller env_failing sys_bound sys_bound crtc_7 rfl rfl
  ⟨h1.1, (h1.2.1 rfl).1, (h1.2.1 rfl).2, h2.2.2 (by decide)⟩

/-- C27, the code at the failing inputs: with no controller claimed and the
connector disconnected, and likewise with the connector connected but no
controller found, ensure_crtc returns false without throwing, the handler
that would return is not entered, and clear_crtc goes on to read the id of a
controller that is not there: undefined behaviour, not a normal return. -/
theorem clear_crtc_without_controller_dereferences_null :
    (ensure_crtc env_ok sys_disconnected).1 = Outcome.ok false ∧
      clear_crtc env_ok sys_disconnected = (Outcome.undefined, sys_disconnected) ∧
      (ensure_crtc env_failing sys_unbound).1 = Outcome.ok false ∧
      (clear_crtc env_failing sys_unbound).1 = Outcome.undefined := by
  decide

/-! ### Buffer migration and pixel formats -/

/-- C24: buffer_requires_migration is true exactly when the device the
buffer object was created on differs from the device of the output, false
exactly when they are the same, and calling it leaves the whole state as it
was. -/
theorem buffer_requires_migration_iff (env : Env) (bo : gbm_bo) (s : Sys) :
    (buffer_requires_migration bo s = true ↔ bo.device_fd ≠ s.drm_fd) ∧
      (buffer_requires_migration bo s = false ↔ bo.device_fd = s.drm_fd) ∧
      exec env (Op.buffer_requires_migration bo) s
        = (Outcome.ok (Val.bool (buffer_requires_migration bo s)), s) := by
  simp [buffer_requires_migration, exec]

/-- C25: the format conversion of fb_for maps GBM_BO_FORMAT_XRGB8888 to
GBM_FORMAT_XRGB8888 and GBM_BO_FORMAT_ARGB8888 to GBM_FORMAT_ARGB8888, leaves
every other value as it is, and applied twice gives the same as applied
once; the pixel format of the framebuffer registration that fb_for issues
for a buffer object without a handle is the converted format of the buffer
object. -/
theorem fb_for_format_translation (env : Env) (bo : gbm_bo) (width height : Nat) (s : Sys) :
    fb_for_format GBM_BO_FORMAT_XRGB8888 = GBM_FORMAT_XRGB8888 ∧
      fb_for_format GBM_BO_FORMAT_ARGB8888 = GBM_FORMAT_ARGB8888 ∧
      (∀ format, format ≠ GBM_BO_FORMAT_XRGB8888 → format ≠ GBM_BO_FORMAT_ARGB8888 →
        fb_for_format format = format) ∧
      (∀ format, fb_for_format (fb_for_format format) = fb_for_format format) ∧
      fb_for_format GBM_FORMAT_XRGB8888 = GBM_FORMAT_XRGB8888 ∧
      fb_for_format GBM_FORMAT_ARGB8888 = GBM_FORMAT_ARGB8888 ∧
      (gbm_bo_get_user_data s bo = none →
        (fb_for env (some bo) width height s).2.trace
          = s.trace ++ [Event.drmModeAddFB2 s.drm_fd width height (fb_for_format bo.format)
              [bo.handle, 0, 0, 0] [bo.stride, 0, 0, 0] [0, 0, 0, 0] 0]) := by
  refine ⟨by decide, by decide, ?_, ?_, by decide, by decide, ?_⟩
  · intro format h0 h1
    simp [fb_for_format, h0, h1]
  · intro format
    unfold fb_for_format
    by_cases h0 : format = GBM_BO_FORMAT_XRGB8888
    · simp only [h0, if_true]
      decide
    · by_cases h1 : format = GBM_BO_FORMAT_ARGB8888
      · simp only [h1, if_true]
        decide
      · simp [h0, h1]
  · intro hnone
    unfold fb_for
    simp only [hnone, Sys.call]
    split <;> simp [gbm_bo_set_user_data]

/-- Witness of C25: a buffer object in the legacy XRGB format is registered
with the fourcc code XR24. -/
theorem fb_for_format_translation_witness :
    bo_1.format = GBM_BO_FORMAT_XRGB8888 ∧
      (fb_for env_ok (some bo_1) 1920 1080 sys_unbound).2.trace
        = [Event.drmModeAddFB2 3 1920 1080 0x34325258 [11, 0, 0, 0] [7680, 0, 0, 0]
            [0, 0, 0, 0] 0] :=
  ⟨rfl, ((fb_for_format_translation env_ok bo_1 1920 1080 sys_unbound).2.2.2.2.2.2
    rfl).trans (by decide)⟩

/-! ### Restoration without a captured state -/

/-- C28: on an output constructed while no controller drives the connector
(the connector has no encoder, or the resources report no controller for any
encoder), the saved controller state is the zero-initialised one, and after
any sequence of calls in which some set_crtc returned true the destructor
issues exactly one call, the kernel mode-set call with controller id 0,
buffer id 0, position 0 and the zero mode for this connector: restoration
depends only on a set_crtc having succeeded. -/
theorem destructor_restores_zero_state (env : Env) (drm_fd : Int) (connector_id : Nat)
    (s0 s : Sys) (ops : List Op) (fb : FBHandle)
    (hc : RealKMSOutput env drm_fd connector_id s0 = (Outcome.ok (), s))
    (hno : s.connector.encoder_id = 0 ∨
      ∀ t encoder, env.resources_encoder t = some encoder → encoder.crtc_id = 0)
    (h : (Op.set_crtc fb, Outcome.ok (Val.bool true)) ∈ (run env ops s).1) :
    s.saved_crtc = drmModeCrtc.zero ∧
      destructor env (run env ops s).2
        = (Outcome.ok (),
          { (run env ops s).2 with
            trace := (run env ops s).2.trace ++
              [Event.drmModeSetCrtc drm_fd 0 0 0 0 [(run env ops s).2.connector.connector_id]
                (some drmModeModeInfo.zero)],
            using_saved_crtc := true }) := by
  have hsaved : s.saved_crtc = drmModeCrtc.zero := by
    have hs := RealKMSOutput_saved_crtc env drm_fd connector_id s0 s hc
    rcases hno with h0 | h0
    · exact hs.1 h0
    · rcases hs.2 with hz | ⟨t, encoder, _, hne, henc, _, _⟩
      · exact hz
      · exact absurd (h0 _ encoder henc) hne
  have hu := run_set_crtc_succeeded env ops s fb h
  have hk := run_keeps env ops s
  have hfd := (RealKMSOutput_ok env drm_fd connector_id s0 s hc).1
  refine ⟨hsaved, ?_⟩
  simp [destructor, restore_saved_crtc, hu, hk.1, hk.2, hfd, Sys.call, hsaved,
    drmModeCrtc.zero]

/-- Witness of C28: connector 5 has no encoder at construction; after one
successful set_crtc the destructor restores controller 0 with buffer 0. -/
theorem destructor_restores_zero_state_witness :
    (destructor env_ok
        (run env_ok [Op.set_crtc fb_21] (RealKMSOutput env_ok 3 5 sys_unbound).2).2).2.trace
      = [Event.DRMModeResources 3, Event.resources_connector 5, Event.DRMModeResources 3,
          Event.find_crtc_for_connector 3 connector_5,
          Event.drmModeSetCrtc 3 7 21 0 0 [5] (some mode_1080p),
          Event.drmModeSetCrtc 3 0 0 0 0 [5] (some drmModeModeInfo.zero)] := by
  have h := destructor_restores_zero_state env_ok 3 5 sys_unbound
    (RealKMSOutput env_ok 3 5 sys_unbound).2 [Op.set_crtc fb_21] fb_21
    (by decide) (Or.inl (by decide)) (by decide)
  rw [h.2]
  decide

/-! ### Rows of the decoration renderer -/

/-- A child is live exactly when its session has not been destroyed. -/
theorem TrustSession.mem_live_children (ts : TrustSession) (session : Nat) :
    session ∈ ts.live_children ↔ session ∈ ts.trusted_children ∧ session ∉ ts.expired := by
  unfold TrustSession.live_children TrustSession.lock
  rw [List.mem_filter]
  by_cases h : session ∈ ts.expired <;> simp [h]

/-- The search of add_trusted_child finds a child exactly when the session
is a live child. -/
theorem TrustSession.any_lock_iff (ts : TrustSession) (session : Nat) :
    ts.trusted_children.any (fun child => ts.lock child = some session) = true
      ↔ session ∈ ts.live_children := by
  rw [TrustSession.mem_live_children, List.any_eq_true]
  constructor
  · rintro ⟨child, hmem, hlock⟩
    unfold TrustSession.lock at hlock
    by_cases h : child ∈ ts.expired
    · simp [h] at hlock
    · simp [h] at hlock
      subst hlock
      exact ⟨hmem, h⟩
  · rintro ⟨hmem, hlive⟩
    exact ⟨session, hmem, by simp [TrustSession.lock, hlive]⟩

/-- Removing a child leaves a sublist of the children. -/
theorem TrustSession.erase_child_sublist (ts : TrustSession) (session : Nat)
    (l r : List Nat) (h : TrustSession.erase_child ts session l = some r) :
    r.Sublist l := by
  induction l generalizing r with
  | nil => simp [TrustSession.erase_child] at h
  | cons child rest ih =>
    unfold TrustSession.erase_child at h
    split at h
    · cases h
      exact List.sublist_cons_self child rest
    · cases hr : TrustSession.erase_child ts session rest with
      | none => simp [hr] at h
      | some r1 =>
        simp [hr] at h
        subst h
        exact (ih r1 hr).cons₂ child

/-- In every state a step can reach from a state with these two properties,
the live children are pairwise distinct and a stopped trust session has no
children. -/
theorem TrustSession.step_invariant (ts : TrustSession) (op : TrustOp)
    (h : ts.live_children.Nodup ∧
      (ts.state = MirTrustSessionState.mir_trust_session_state_stopped →
        ts.trusted_children = [])) :
    (ts.step op).live_children.Nodup ∧
      ((ts.step op).state = MirTrustSessionState.mir_trust_session_state_stopped →
        (ts.step op).trusted_children = []) := by
  cases op with
  | start =>
    simp only [TrustSession.step, TrustSession.start]
    split
    · exact h
    · split
      · exact ⟨h.1, fun hs => by simp at hs⟩
      · exact ⟨h.1, fun hs => by simp at hs⟩
  | stop =>
    simp only [TrustSession.step, TrustSession.stop]
    split
    · exact h
    · exact ⟨by simp [TrustSession.live_children], fun _ => rfl⟩
  | add_trusted_child session =>
    simp only [TrustSession.step, TrustSession.add_trusted_child]
    split
    · exact h
    · rename_i hstate
      split
      · exact h
      · rename_i hany
        have hnot : session ∉ ts.live_children := fun hm =>
          hany ((TrustSession.any_lock_iff ts session).2 hm)
        refine ⟨?_, fun hs => absurd hs hstate⟩
        have hl : TrustSession.live_children
            { ts with
              trusted_children := ts.trusted_children ++ [session],
              events := ts.events ++ [TrustEvent.begin_trust_session session,
                TrustEvent.trusted_session_beginning session] }
            = ts.live_children ++ [session].filter
                (fun child => (ts.lock child).isSome) := by
          simp [TrustSession.live_children, TrustSession.lock, List.filter_append]
        rw [hl]
        apply List.Nodup.append h.1 (List.Nodup.filter _ (List.nodup_singleton session))
        intro a ha hb
        have : a = session := by
          have := List.mem_of_mem_filter hb
          simpa using this
        subst this
        exact hnot ha
  | remove_trusted_child session =>
    simp only [TrustSession.step, TrustSession.remove_trusted_child]
    split
    · exact h
    · rename_i hstate
      split
      · rename_i children hchildren
        refine ⟨?_, fun hs => absurd hs hstate⟩
        have hsub := TrustSession.erase_child_sublist ts session _ _ hchildren
        exact List.Nodup.sublist (hsub.filter _) h.1
      · exact h
  | session_destroyed session =>
    simp only [TrustSession.step]
    refine ⟨?_, h.2⟩
    have hl : TrustSession.live_children { ts with expired := session :: ts.expired }
        = ts.live_children.filter (fun child => decide (child ≠ session)) := by
      simp only [TrustSession.live_children, TrustSession.lock, List.filter_filter]
      congr 1
      funext child
      by_cases h1 : child = session <;> by_cases h2 : child ∈ ts.expired <;> simp [h1, h2]
    rw [hl]
    exact List.Nodup.filter _ h.1

/-- The two properties hold after every sequence of steps. -/
theorem TrustSession.steps_invariant (ts : TrustSession) (ops : List TrustOp)
    (h : ts.live_children.Nodup ∧
      (ts.state = MirTrustSessionState.mir_trust_session_state_stopped →
        ts.trusted_children = [])) :
    (ts.steps ops).live_children.Nodup ∧
      ((ts.steps ops).state = MirTrustSessionState.mir_trust_session_state_stopped →
        (ts.steps ops).trusted_children = []) := by
  induction ops generalizing ts with
  | nil => exact h
  | cons op ops ih => exact ih (ts.step op) (TrustSession.step_invariant ts op h)

/-- C30: add_trusted_child returns false and changes nothing when the trust
session is stopped and when the session is already a live trusted child;
otherwise it appends the session to the end of the children, calls
begin_trust_session on it, notifies the listener and returns true.  In
every state reached from a newly constructed trust session the live trusted
children are pairwise distinct, and stop() leaves the state stopped and the
children empty. -/
theorem TrustSession.add_trusted_child_effect (session : Nat) (ts : TrustSession)
    (helper : Option Nat) (expired : List Nat) (events : List TrustEvent)
    (ops : List TrustOp) :
    (ts.state = MirTrustSessionState.mir_trust_session_state_stopped →
        ts.add_trusted_child session = (false, ts)) ∧
      (session ∈ ts.live_children → ts.add_trusted_child session = (false, ts)) ∧
      (ts.state ≠ MirTrustSessionState.mir_trust_session_state_stopped →
        session ∉ ts.live_children →
        ts.add_trusted_child session
          = (true,
              { ts with
                trusted_children := ts.trusted_children ++ [session],
                events := ts.events ++ [TrustEvent.begin_trust_session session,
                  TrustEvent.trusted_session_beginning session] })) ∧
      ((TrustSession.create helper expired events).steps ops).live_children.Nodup ∧
      ((TrustSession.create helper expired events).steps ops).stop.state
        = MirTrustSessionState.mir_trust_session_state_stopped ∧
      ((TrustSession.create helper expired events).steps ops).stop.trusted_children = [] := by
  have hinv := TrustSession.steps_invariant (TrustSession.create helper expired events) ops
    ⟨by simp [TrustSession.create, TrustSession.live_children], fun _ => rfl⟩
  refine ⟨?_, ?_, ?_, hinv.1, ?_, ?_⟩
  · intro hs
    simp [TrustSession.add_trusted_child, hs]
  · intro hm
    have hany := (TrustSession.any_lock_iff ts session).2 hm
    unfold TrustSession.add_trusted_child
    rw [if_pos hany]
    simp
  · intro hs hm
    have hany : ¬ (ts.trusted_children.any (fun child => ts.lock child = some session)
        = true) := fun h => hm ((TrustSession.any_lock_iff ts session).1 h)
    unfold TrustSession.add_trusted_child
    rw [if_neg hs, if_neg hany]
  · unfold TrustSession.stop
    split
    · assumption
    · simp only []
      split <;> rfl
  · unfold TrustSession.stop
    split
    · rename_i hs
      exact hinv.2 hs
    · rfl

/-- Witness of C30: a started trust session takes session 1 and refuses it
the second time; a stopped one refuses it; after sessions 1 and 2 were added
and session 1 was destroyed the only live child is session 2, and stop
leaves no children. -/
theorem TrustSession.add_trusted_child_effect_witness :
    ((TrustSession.create (some 0) [] []).steps [TrustOp.start]).add_trusted_child 1
        = (true,
            { trusted_helper := some 0,
              state := MirTrustSessionState.mir_trust_session_state_started,
              trusted_children := [1], expired := [],
              events := [TrustEvent.begin_trust_session 0, TrustEvent.begin_trust_session 1,
                TrustEvent.trusted_session_beginning 1] }) ∧
      (((TrustSession.create (some 0) [] []).steps
          [TrustOp.start, TrustOp.add_trusted_child 1]).add_trusted_child 1).1 = false ∧
      (TrustSession.create (some 0) [] []).add_trusted_child 1
        = (false, TrustSession.create (some 0) [] []) ∧
      ((TrustSession.create (some 0) [] []).steps
          [TrustOp.start, TrustOp.add_trusted_child 1, TrustOp.add_trusted_child 2,
            TrustOp.session_destroyed 1]).live_children = [2] ∧
      ((TrustSession.create (some 0) [] []).steps
          [TrustOp.start, TrustOp.add_trusted_child 1, TrustOp.add_trusted_child 2,
            TrustOp.session_destroyed 1]).stop.trusted_children = [] :=
  have h1 := TrustSession.add_trusted_child_effect 1
    ((TrustSession.create (some 0) [] []).steps [TrustOp.start]) (some 0) []  []
    [TrustOp.start, TrustOp.add_trusted_child 1, TrustOp.add_trusted_child 2,
      TrustOp.session_destroyed 1]
  have h2 := TrustSession.add_trusted_child_effect 1
    ((TrustSession.create (some 0) [] []).steps [TrustOp.start, TrustOp.add_trusted_child 1])
    (some 0) [] [] []
  have h3 := TrustSession.add_trusted_child_effect 1 (TrustSession.create (some 0) [] [])
    (some 0) [] [] []
  ⟨(h1.2.2.1 (by decide) (by decide)).trans (by decide),
    by rw [h2.2.1 (by decide)], h3.1 rfl, by decide, h1.2.2.2.2.2⟩

end Mir
